import Mathlib

/-!
Verification development for the particle-tycoon simulation core
(repository file particle_tycoon.py, which the specification designates as
the canonical, most complete implementation of Wall, Planet, DwarfPlanet,
Particle and the population managers).

Modelling conventions:
* Python floats are modelled by real numbers; math.sqrt is Real.sqrt,
  x ** 1.5 is real rpow, math.atan2 is the argument of a complex number.
* Mutation of an object becomes a function returning the updated record.
* Visual-only state (colours, trails, glow, z-depth, animation timers,
  explosion fragment sprites, sounds, popups) is omitted: it feeds only the
  renderer and never the simulation state that the claims mention.
* Randomness appears only in spawning positions/velocities and in the
  visual fragments, never in the per-particle physics, so the physics
  functions are deterministic and take the once-random values as inputs.
-/

namespace ParticleTycoon

open Classical

/-- atan2 as used by math.atan2(y, x): the principal argument of x + i y,
which agrees with Python's atan2 (range (-pi, pi]). -/
noncomputable def atan2 (y x : ℝ) : ℝ := Complex.arg ⟨x, y⟩

/-! ## Planet (particle_tycoon.py, class Planet) -/

/-- State of a Planet (class Planet, __init__ lines 1038-1073).
Visual fields (colour, planet type, spots, bounce/shimmer timers) omitted. -/
structure Planet where
  x : ℝ
  y : ℝ
  radius : ℝ
  base_mass : ℝ
  gravity_level : ℕ
  mass : ℝ
  particles_collected : ℕ
  upgrade_cost : ℝ
  base_gravity_distance : ℝ
  gravity_distance : ℝ
  base_air_resistance_intensity : ℝ
  air_resistance_intensity : ℝ
  has_clone_orbit : Bool
  clone_orbit_radius : ℝ
  clone_orbit_cost : ℝ

/-- Planet.__init__(x, y, radius=48): base_mass = radius*2, gravity_level = 1,
mass = base_mass * gravity_level, upgrade_cost = 75, gravity distances 500,
air resistance 0.5, no clone orbit, clone_orbit_radius = radius*4, cost 150. -/
def Planet.init (x y radius : ℝ) : Planet where
  x := x
  y := y
  radius := radius
  base_mass := radius * 2
  gravity_level := 1
  mass := radius * 2 * 1
  particles_collected := 0
  upgrade_cost := 75
  base_gravity_distance := 500
  gravity_distance := 500
  base_air_resistance_intensity := 0.5
  air_resistance_intensity := 0.5
  has_clone_orbit := false
  clone_orbit_radius := radius * 4
  clone_orbit_cost := 150

/-- The state mutation performed by Planet.collect_particle (lines 1075-1098):
particles_collected += 1; radius *= 1.002; mass, gravity_distance and
air_resistance_intensity *= 1.001; clone_orbit_radius = (new radius) * 4.
The bounce/shimmer animation fields it also touches are visual-only. -/
def Planet.collect_particle (p : Planet) : Planet :=
  { p with
    particles_collected := p.particles_collected + 1
    radius := p.radius * 1.002
    mass := p.mass * 1.001
    gravity_distance := p.gravity_distance * 1.001
    air_resistance_intensity := p.air_resistance_intensity * 1.001
    clone_orbit_radius := p.radius * 1.002 * 4 }

/-- The value returned by Planet.collect_particle (lines 1100-1129): given the
impact position (px, py) it returns the collision point on the (already grown)
planet surface together with the outward angle, or none when px/py are absent
or the impact coincides with the centre.  This is collision data for the
light-ray effect, not a currency amount. -/
noncomputable def Planet.collect_collision_data (p : Planet) (impact : Option (ℝ × ℝ)) :
    Option (ℝ × ℝ × ℝ) :=
  match impact with
  | none => none
  | some (px, py) =>
    let dx := px - p.x
    let dy := py - p.y
    let distance := Real.sqrt (dx * dx + dy * dy)
    if 0 < distance then
      some (p.x + dx / distance * p.radius, p.y + dy / distance * p.radius, atan2 dy dx)
    else none

/-- Planet.collect_particle in full: the state mutation happens first, then the
collision data is computed from the mutated state and returned. -/
noncomputable def Planet.collect_particle_full (p : Planet) (impact : Option (ℝ × ℝ)) :
    Planet × Option (ℝ × ℝ × ℝ) :=
  (p.collect_particle, p.collect_particle.collect_collision_data impact)

/-- Planet.upgrade_gravity (lines 1131-1150): gravity_level += 1; then
mass, gravity_distance and air_resistance_intensity are recomputed from the
base values by linear level scaling, and upgrade_cost = int(upgrade_cost*1.3)
(Python int() on a positive float is the floor). -/
noncomputable def Planet.upgrade_gravity (p : Planet) : Planet :=
  { p with
    gravity_level := p.gravity_level + 1
    mass := p.base_mass * (1 + (((p.gravity_level + 1 : ℕ) : ℝ) - 1) * 0.5)
    gravity_distance := p.base_gravity_distance * (1 + (((p.gravity_level + 1 : ℕ) : ℝ) - 1) * 0.3)
    air_resistance_intensity :=
      p.base_air_resistance_intensity * (1 + (((p.gravity_level + 1 : ℕ) : ℝ) - 1) * 0.4)
    upgrade_cost := (⌊p.upgrade_cost * 1.3⌋ : ℤ) }

/-! ## DwarfPlanet (particle_tycoon.py, class DwarfPlanet) -/

/-- State of a DwarfPlanet (__init__ lines 889-922).  Note it has no
base_gravity_distance field in the source either. -/
structure DwarfPlanet where
  x : ℝ
  y : ℝ
  radius : ℝ
  base_mass : ℝ
  gravity_level : ℕ
  mass : ℝ
  particles_collected : ℕ
  upgrade_cost : ℝ
  gravity_distance : ℝ
  base_air_resistance_intensity : ℝ
  air_resistance_intensity : ℝ
  has_clone_orbit : Bool
  clone_orbit_radius : ℝ
  clone_orbit_cost : ℝ

/-- DwarfPlanet.__init__(x, y, radius=18): base_mass = radius*1.5,
gravity_distance = 150, air resistance 0.3, clone orbit disabled. -/
def DwarfPlanet.init (x y radius : ℝ) : DwarfPlanet where
  x := x
  y := y
  radius := radius
  base_mass := radius * 1.5
  gravity_level := 1
  mass := radius * 1.5 * 1
  particles_collected := 0
  upgrade_cost := 30
  gravity_distance := 150
  base_air_resistance_intensity := 0.3
  air_resistance_intensity := 0.3
  has_clone_orbit := false
  clone_orbit_radius := 0
  clone_orbit_cost := 999999

/-- The state mutation performed by DwarfPlanet.collect_particle
(lines 924-939): particles_collected += 1; radius *= 1.001; mass *= 1.0005.
Unlike Planet.collect_particle it does NOT touch gravity_distance,
air_resistance_intensity or clone_orbit_radius. -/
def DwarfPlanet.collect_particle (p : DwarfPlanet) : DwarfPlanet :=
  { p with
    particles_collected := p.particles_collected + 1
    radius := p.radius * 1.001
    mass := p.mass * 1.0005 }

/-- DwarfPlanet.upgrade_gravity (lines 958-963): capped at level 3;
below the cap it sets mass = base_mass * new_level and upgrade_cost
= int(upgrade_cost * 1.8). -/
noncomputable def DwarfPlanet.upgrade_gravity (p : DwarfPlanet) : DwarfPlanet :=
  if p.gravity_level < 3 then
    { p with
      gravity_level := p.gravity_level + 1
      mass := p.base_mass * ((p.gravity_level + 1 : ℕ) : ℝ)
      upgrade_cost := (⌊p.upgrade_cost * 1.8⌋ : ℤ) }
  else p

/-! ## Wall (particle_tycoon.py, class Wall, lines 248-274) -/

/-- A wall segment; length and the unit normal are derived fields computed in
Wall.__init__ (the normal is (0,0) for a degenerate zero-length wall). -/
structure Wall where
  x1 : ℝ
  y1 : ℝ
  x2 : ℝ
  y2 : ℝ

noncomputable def Wall.length (w : Wall) : ℝ :=
  Real.sqrt ((w.x2 - w.x1) ^ 2 + (w.y2 - w.y1) ^ 2)

noncomputable def Wall.nx (w : Wall) : ℝ :=
  if 0 < w.length then (w.y2 - w.y1) / w.length else 0

noncomputable def Wall.ny (w : Wall) : ℝ :=
  if 0 < w.length then -(w.x2 - w.x1) / w.length else 0

/-- Wall.check_collision(px, py, radius) (lines 260-274): the exact
point-to-segment test.  Returns (collision?, normal x, normal y);
a zero-length wall reports no collision. -/
noncomputable def Wall.check_collision (w : Wall) (px py radius : ℝ) : Prop × ℝ × ℝ :=
  if w.length = 0 then (False, 0, 0)
  else
    let dx := px - w.x1
    let dy := py - w.y1
    let wdx := w.x2 - w.x1
    let wdy := w.y2 - w.y1
    let t := max 0 (min 1 ((dx * wdx + dy * wdy) / w.length ^ 2))
    let cx := w.x1 + t * wdx
    let cy := w.y1 + t * wdy
    let dist := Real.sqrt ((px - cx) ^ 2 + (py - cy) ^ 2)
    if dist < radius then (True, w.nx, w.ny) else (False, 0, 0)

/-- Modelled from the spec: the exact point-to-segment distance, computed with
t = clamp(dot(point-p1, p2-p1)/norm(p2-p1)^2, 0, 1), closest = p1 + t*(p2-p1),
distance = dist(point, closest). -/
noncomputable def specPointSegmentDist (w : Wall) (px py : ℝ) : ℝ :=
  let wdx := w.x2 - w.x1
  let wdy := w.y2 - w.y1
  let t := max 0 (min 1 (((px - w.x1) * wdx + (py - w.y1) * wdy) / (wdx ^ 2 + wdy ^ 2)))
  Real.sqrt ((px - (w.x1 + t * wdx)) ^ 2 + (py - (w.y1 + t * wdy)) ^ 2)

/-! ## Particle (particle_tycoon.py, class Particle, lines 530-784) -/

/-- The clone record built by Particle._clone_particle (lines 767-779) and
stored in the particle's _pending_clones list for the emitter to drain.
The z and colour entries are visual-only and omitted. -/
structure CloneData where
  x : ℝ
  y : ℝ
  vx : ℝ
  vy : ℝ
  radius : ℝ
  mass : ℝ
  age : ℝ
  lifetime : ℝ

/-- State of a Particle (__init__ lines 530-565).  The boolean cloned models
the dynamically added _cloned_from_planet attribute (absent = false) and
pending models _pending_clones (absent = empty).  Trail, colour, z-depth,
glow and the explosion fragment sprites are visual-only and omitted. -/
structure Particle where
  x : ℝ
  y : ℝ
  vx : ℝ
  vy : ℝ
  radius : ℝ
  mass : ℝ
  alive : Bool
  exploding : Bool
  fading : Bool
  explosion_timer : ℝ
  fade_timer : ℝ
  age : ℝ
  lifetime : ℝ
  cloned : Bool
  pending : List CloneData

/-- Particle.__init__(x, y): radius 5, mass 1, alive, lifetime 20 s, age 0,
no explosion/fade in progress.  The initial velocity is drawn at random
(random angle, speed in 0.8-2.2) — it is taken here as an input. -/
def Particle.init (x y vx vy : ℝ) : Particle where
  x := x
  y := y
  vx := vx
  vy := vy
  radius := 5
  mass := 1
  alive := true
  exploding := false
  fading := false
  explosion_timer := 0
  fade_timer := 0
  age := 0
  lifetime := 20
  cloned := false
  pending := []

/-- The particle built by ParticleEmitter.update from a drained clone record
(lines 1408-1418): a fresh Particle whose position, velocity, radius, mass,
age and lifetime are overwritten from the record, marked _cloned_from_planet
to prevent re-cloning. -/
def mkClone (c : CloneData) : Particle where
  x := c.x
  y := c.y
  vx := c.vx
  vy := c.vy
  radius := c.radius
  mass := c.mass
  alive := true
  exploding := false
  fading := false
  explosion_timer := 0
  fade_timer := 0
  age := c.age
  lifetime := c.lifetime
  cloned := true
  pending := []

/-- Particle._clone_particle (lines 745-784): with zero velocity it is a
no-op (no spread, no pending clone); otherwise the particle's own velocity
is spread by 30 percent of its magnitude along the orthogonal direction and a
mirrored clone record is appended to the pending list. -/
noncomputable def Particle.clone_step (q : Particle) : Particle :=
  let vm := Real.sqrt (q.vx ^ 2 + q.vy ^ 2)
  if vm = 0 then q
  else
    let ox := -(q.vy / vm)
    let oy := q.vx / vm
    let s := vm * 0.3
    { q with
      vx := q.vx + ox * s
      vy := q.vy + oy * s
      pending := q.pending ++
        [⟨q.x, q.y, q.vx + ox * s - 2 * ox * s, q.vy + oy * s - 2 * oy * s,
          q.radius, q.mass, q.age, q.lifetime⟩] }

/-- The gradual distance falloff of gravity (lines 662-668): full strength
strictly inside gravity_distance, then a linear ramp to zero over the next
200 units. -/
noncomputable def Planet.distance_factor (pl : Planet) (d : ℝ) : ℝ :=
  if d < pl.gravity_distance then 1 else max 0 (1 - (d - pl.gravity_distance) / 200)

/-- The gravitational force magnitude a planet applies at centre distance d
(lines 652-671): mass / d**1.5 * gravity_strength (gravity_strength = 2.0),
attenuated by the distance factor. -/
noncomputable def Planet.gravity_force (pl : Planet) (d : ℝ) : ℝ :=
  pl.mass / d ^ (1.5 : ℝ) * 2 * pl.distance_factor d

/-- The planet-collision condition of the planet loop (lines 612-614):
centre distance strictly below planet.radius + particle.radius + 2.
(The in-loop test uses the particle radius after the clone step, which never
changes the radius, so this is the same test.) -/
noncomputable def collides_with (q : Particle) (pl : Planet) : Prop :=
  Real.sqrt ((pl.x - q.x) ^ 2 + (pl.y - q.y) ^ 2) < pl.radius + q.radius + 2

/-- A planet exerts a non-zero gravitational force on a particle exactly when
the loop body applies one (lines 653-681): positive centre distance and
positive attenuated force magnitude. -/
noncomputable def exerts_gravity (q : Particle) (pl : Planet) : Prop :=
  0 < Real.sqrt ((pl.x - q.x) ^ 2 + (pl.y - q.y) ^ 2) ∧
  0 < pl.gravity_force (Real.sqrt ((pl.x - q.x) ^ 2 + (pl.y - q.y) ^ 2))

/-- The clone-orbit trigger condition of the planet loop (lines 604-606):
the planet has a clone orbit, the particle was not already cloned, and the
centre distance is within tolerance 3 of the clone orbit radius. -/
noncomputable def clone_triggered (q : Particle) (pl : Planet) : Prop :=
  pl.has_clone_orbit = true ∧ q.cloned = false ∧
  |Real.sqrt ((pl.x - q.x) ^ 2 + (pl.y - q.y) ^ 2) - pl.clone_orbit_radius| ≤ 3

/-- The gravitational velocity contribution one planet adds inside the loop
(lines 652-681): the force vector along the unit direction towards the
planet, or zero when the guards (positive distance, positive force) fail. -/
noncomputable def gravity_contribution (q : Particle) (pl : Planet) : ℝ × ℝ :=
  let dx := pl.x - q.x
  let dy := pl.y - q.y
  let d := Real.sqrt (dx ^ 2 + dy ^ 2)
  if 0 < d then
    if 0 < pl.gravity_force d then (dx / d * pl.gravity_force d, dy / d * pl.gravity_force d)
    else (0, 0)
  else (0, 0)

/-- The air-resistance strength profile (lines 683-693): 1 - d/gravity_distance
inside gravity_distance, and half the linear fade ramp in the 200-unit fade
zone beyond it. -/
noncomputable def Planet.air_strength (pl : Planet) (d : ℝ) : ℝ :=
  if d < pl.gravity_distance then 1 - d / pl.gravity_distance
  else max 0 (1 - (d - pl.gravity_distance) / 200) * 0.5

/-- The air-resistance velocity update of one planet (lines 683-706):
within gravity_distance + 200, a drag of magnitude
0.015 * air_resistance_intensity * air_strength opposing the current
velocity (skipped at zero speed). -/
noncomputable def air_step (pl : Planet) (d : ℝ) (q : Particle) : Particle :=
  if d < pl.gravity_distance + 200 then
    let ar := 0.015 * pl.air_resistance_intensity * pl.air_strength d
    let speed := Real.sqrt (q.vx ^ 2 + q.vy ^ 2)
    if 0 < speed then
      { q with
        vx := q.vx + -(q.vx / speed) * ar * speed
        vy := q.vy + -(q.vy / speed) * ar * speed }
    else q
  else q

/-- Result of the per-planet loop in Particle.update: ret is the early return
taken on planet collision (carrying the collected planet, whose
collect_particle the code invokes there), go is normal fall-through carrying
the affected_by_gravity flag. -/
inductive LoopOut where
  | ret (p : Particle) (collected : Planet)
  | go (p : Particle) (affected : Bool)

/-- One iteration of the planet loop of Particle.update (lines 599-706):
clone-orbit check, planet-collision check (early return, exploding only when
not fading, alive cleared regardless), then, at positive distance, the
gravitational pull (setting affected_by_gravity when the applied force is
positive) followed by air resistance. -/
noncomputable def planet_step (q : Particle) (affected : Bool) (pl : Planet) : LoopOut :=
  let dx := pl.x - q.x
  let dy := pl.y - q.y
  let d := Real.sqrt (dx ^ 2 + dy ^ 2)
  let q1 := if pl.has_clone_orbit ∧ q.cloned = false ∧ |d - pl.clone_orbit_radius| ≤ 3
    then { q.clone_step with cloned := true } else q
  if d < pl.radius + q1.radius + 2 then
    LoopOut.ret
      (if q1.fading then { q1 with alive := false }
       else { q1 with exploding := true, explosion_timer := 0.2, alive := false }) pl
  else if 0 < d then
    let force := pl.gravity_force d
    let q2 := if 0 < force then
        { q1 with vx := q1.vx + dx / d * force, vy := q1.vy + dy / d * force }
      else q1
    LoopOut.go (air_step pl d q2) (if 0 < force then true else affected)
  else LoopOut.go q1 affected

/-- The planet loop of Particle.update, with the early return on collision. -/
noncomputable def planet_loop (q : Particle) (affected : Bool) : List Planet → LoopOut
  | [] => LoopOut.go q affected
  | pl :: rest =>
    match planet_step q affected pl with
    | LoopOut.ret p c => LoopOut.ret p c
    | LoopOut.go q2 aff2 => planet_loop q2 aff2 rest

/-- The wall-bounce response of Particle.update (lines 720-735): reflect the
velocity about the wall normal, scale both components by the 0.8 energy-loss
factor, and displace the particle by radius + 1 along the normal. -/
def wall_bounce (p : Particle) (nx ny : ℝ) : Particle :=
  let dot := p.vx * nx + p.vy * ny
  { p with
    vx := (p.vx - 2 * dot * nx) * 0.8
    vy := (p.vy - 2 * dot * ny) * 0.8
    x := p.x + nx * (p.radius + 1)
    y := p.y + ny * (p.radius + 1) }

/-- The wall loop of Particle.update (lines 716-736): bounce off the first
colliding wall only (the Python loop breaks after a bounce). -/
noncomputable def wall_loop (p : Particle) : List Wall → Particle
  | [] => p
  | w :: ws =>
    let c := w.check_collision p.x p.y p.radius
    if c.1 then wall_bounce p c.2.1 c.2.2 else wall_loop p ws

/-- The per-tick inputs of Particle.update.  The gravity_distance and
air_resistance_intensity arguments of the Python method are ignored by its
body (it reads the per-planet fields instead), so they are not modelled. -/
structure Env where
  dt : ℝ
  planets : List Planet
  walls : List Wall

/-- The tail of Particle.update after the planet loop falls through
(lines 708-743): age the particle by dt only when not affected by gravity,
integrate position (x += vx, with no dt factor, as in the source), bounce
off the first colliding wall, and despawn past the world limit
(WORLD_LIMIT = 100000). -/
noncomputable def post_loop (env : Env) (q : Particle) (aff : Bool) : Particle :=
  let q1 := if aff then q else { q with age := q.age + env.dt }
  let q2 := { q1 with x := q1.x + q1.vx, y := q1.y + q1.vy }
  let q3 := wall_loop q2 env.walls
  if q3.x < -100000 ∨ 100000 < q3.x ∨ q3.y < -100000 ∨ 100000 < q3.y
  then { q3 with alive := false } else q3

/-- Particle.update (lines 567-743), complete control flow: early return when
dead; lifetime timeout starts fading; exploding particles only run their
timer down and return; fading particles run the fade timer (dying at 0) but
keep moving; then the planet loop (clone orbit, collision with early return,
gravity, air resistance), followed by the post-loop tail (aging, position
integration, wall bounce, world-limit despawn). -/
noncomputable def Particle.update (env : Env) (p0 : Particle) : Particle :=
  if p0.alive = false then p0
  else
    let p1 := if p0.lifetime ≤ p0.age ∧ p0.exploding = false ∧ p0.fading = false
      then { p0 with fading := true, fade_timer := 1 } else p0
    if p1.exploding then
      { p1 with
        explosion_timer := p1.explosion_timer - env.dt
        alive := if p1.explosion_timer - env.dt ≤ 0 then false else p1.alive }
    else
      let p2 := if p1.fading then
          { p1 with
            fade_timer := p1.fade_timer - env.dt
            alive := if p1.fade_timer - env.dt ≤ 0 then false else p1.alive }
        else p1
      match planet_loop p2 false env.planets with
      | LoopOut.ret q _ => q
      | LoopOut.go q aff => post_loop env q aff

/-! ## Lifecycle states -/

/-- The four lifecycle states of the specification's state machine. -/
inductive PState where
  | alive
  | fading
  | exploding
  | dead
deriving DecidableEq

/-- The lifecycle state encoded by the particle's flags: a particle with
alive = False is Dead (the managers prune exactly those), otherwise the
exploding flag, then the fading flag, take precedence. -/
def Particle.lifecycle_state (p : Particle) : PState :=
  if p.alive = false then PState.dead
  else if p.exploding then PState.exploding
  else if p.fading then PState.fading
  else PState.alive

/-- The transition edges the code actually permits in one update call:
every state may persist or die; Alive may additionally start Fading.
(Alive to Exploding never survives a tick observably, because the collision
branch clears alive in the same tick; see the claim C5 analysis.) -/
def allowed_step : PState → PState → Bool
  | PState.alive, PState.alive => true
  | PState.alive, PState.fading => true
  | PState.alive, PState.dead => true
  | PState.fading, PState.fading => true
  | PState.fading, PState.dead => true
  | PState.exploding, PState.exploding => true
  | PState.exploding, PState.dead => true
  | PState.dead, PState.dead => true
  | _, _ => false

/-! ## Population managers (particle_tycoon.py, ParticleEmitter lines
1365-1447 and ParticleSpawner lines 1454-1482) -/

/-- The per-particle pass of ParticleEmitter.update (lines 1404-1447) over a
snapshot of the particle list (Python iterates over the slice copy
self.particles[:]): for each particle, first drain its pending clone records
into new particles (Python appends them to self.particles during the pass, so
they sit after all snapshot entries and are not themselves visited), clear
the pending list, update the particle, and drop it if no longer alive.
Returns (surviving updated snapshot entries, drained clones). -/
noncomputable def emitter_pass_core (env : Env) : List Particle → List Particle × List Particle
  | [] => ([], [])
  | s :: rest =>
    let clones := s.pending.map mkClone
    let s2 := Particle.update env { s with pending := [] }
    let res := emitter_pass_core env rest
    ((if s2.alive then s2 :: res.1 else res.1), clones ++ res.2)

/-- The particle list owned by the emitter after one update pass: the
surviving updated particles in order, followed by the clones appended during
the pass. -/
noncomputable def emitter_update_pass (env : Env) (ps : List Particle) : List Particle :=
  (emitter_pass_core env ps).1 ++ (emitter_pass_core env ps).2

/-- The per-particle pass of ParticleSpawner.update (lines 1479-1482): it
only updates each particle and drops the dead ones — it never reads
_pending_clones, so clone records of spawner-owned particles are never
turned into new particles. -/
noncomputable def spawner_update_pass (env : Env) : List Particle → List Particle
  | [] => []
  | s :: rest =>
    let s2 := Particle.update env s
    if s2.alive then s2 :: spawner_update_pass env rest
    else spawner_update_pass env rest

/-! ## Economy crediting (particle_tycoon.py, Game.update lines 2197-2200) -/

/-- The money-crediting step of Game.update: money += (sum of
particles_collected over all planets) - total_particles_collected, then the
running total is replaced by the new sum.  This counter diff — not any
return value of collect_particle — is what credits the economy. -/
def credit_step (money : ℝ) (total : ℕ) (planets : List Planet) : ℝ × ℕ :=
  let s := (planets.map Planet.particles_collected).sum
  (money + ((s : ℝ) - (total : ℝ)), s)

/-! ## Helper lemmas -/

theorem sqrt_eval {a b : ℝ} (hb : 0 ≤ b) (h : b ^ 2 = a) : Real.sqrt a = b := by
  rw [← h, Real.sqrt_sq hb]

theorem rpow_three_halves (d : ℝ) (hd : 0 < d) : d ^ (1.5 : ℝ) = d * Real.sqrt d := by
  rw [show (1.5 : ℝ) = 1 + 1 / 2 by norm_num, Real.rpow_add hd, Real.rpow_one,
    Real.sqrt_eq_rpow]

theorem Planet.collect_iterate (p : Planet) (n : ℕ) :
    (Planet.collect_particle^[n] p).radius = p.radius * 1.002 ^ n ∧
    (Planet.collect_particle^[n] p).mass = p.mass * 1.001 ^ n ∧
    (Planet.collect_particle^[n] p).gravity_distance = p.gravity_distance * 1.001 ^ n ∧
    (Planet.collect_particle^[n] p).air_resistance_intensity
      = p.air_resistance_intensity * 1.001 ^ n ∧
    (Planet.collect_particle^[n] p).base_mass = p.base_mass ∧
    (Planet.collect_particle^[n] p).base_gravity_distance = p.base_gravity_distance ∧
    (Planet.collect_particle^[n] p).base_air_resistance_intensity
      = p.base_air_resistance_intensity ∧
    (Planet.collect_particle^[n] p).gravity_level = p.gravity_level := by
  induction n with
  | zero => simp
  | succ k ih =>
    obtain ⟨e1, e2, e3, e4, e5, e6, e7, e8⟩ := ih
    rw [Function.iterate_succ_apply']
    refine ⟨?_, ?_, ?_, ?_, ?_, ?_, ?_, ?_⟩ <;>
      simp [Planet.collect_particle, e1, e2, e3, e4, e5, e6, e7, e8] <;> ring

theorem DwarfPlanet.collect_iterate_dwarf (q : DwarfPlanet) (n : ℕ) :
    (DwarfPlanet.collect_particle^[n] q).radius = q.radius * 1.001 ^ n ∧
    (DwarfPlanet.collect_particle^[n] q).mass = q.mass * 1.0005 ^ n ∧
    (DwarfPlanet.collect_particle^[n] q).gravity_distance = q.gravity_distance ∧
    (DwarfPlanet.collect_particle^[n] q).air_resistance_intensity
      = q.air_resistance_intensity := by
  induction n with
  | zero => simp
  | succ k ih =>
    obtain ⟨e1, e2, e3, e4⟩ := ih
    rw [Function.iterate_succ_apply']
    refine ⟨?_, ?_, ?_, ?_⟩ <;>
      simp [DwarfPlanet.collect_particle, e1, e2, e3, e4] <;> ring

/-! ## Claim C1 -/

/-- Claim C1, counterexample: Planet.collect_particle does not return the
integer 1 — called on a fresh planet at the origin with impact point (58, 0)
it returns the surface collision point and outward angle
(48 * 1.002 = 6012/125, 0, 0) used for the light-ray effect. -/
theorem collect_particle_returns_surface_data :
    (Planet.collect_particle_full (Planet.init 0 0 48) (some (58, 0))).2
      = some (6012 / 125, 0, 0) := by
  have hrec : (Planet.init 0 0 48).collect_particle.x = 0 ∧
      (Planet.init 0 0 48).collect_particle.y = 0 ∧
      (Planet.init 0 0 48).collect_particle.radius = 48 * 1.002 :=
    ⟨rfl, rfl, rfl⟩
  obtain ⟨hx, hy, hr⟩ := hrec
  unfold Planet.collect_particle_full Planet.collect_collision_data
  rw [hx, hy, hr]
  have hs : Real.sqrt ((58 - 0) * (58 - 0) + (0 - 0) * (0 - 0)) = 58 := by
    apply sqrt_eval (by norm_num)
    norm_num
  simp only [hs]
  rw [if_pos (by norm_num)]
  have harg : atan2 (0 - 0) (58 - 0) = 0 := by
    unfold atan2
    have : (⟨58 - 0, 0 - 0⟩ : ℂ) = ((58 : ℝ) : ℂ) := Complex.ext (by norm_num) (by norm_num)
    rw [this, Complex.arg_ofReal_of_nonneg (by norm_num)]
  rw [harg]
  norm_num

/-- Claim C1, amended: each collect_particle call (Planet or DwarfPlanet)
increments particles_collected by exactly 1, and the game's crediting step —
which adds the difference between the current sum of particles_collected and
the running total to the money — credits exactly 1 unit of currency for that
call.  The int return value of the claim does not exist: collect_particle
returns surface collision data (see the counterexample), and the counter
diff is the sole signal to the economy. -/
theorem collect_particle_credits_one_unit (p : Planet) (q : DwarfPlanet)
    (money : ℝ) (total : ℕ) (l1 l2 : List Planet)
    (htotal : total = (((l1 ++ p :: l2).map Planet.particles_collected).sum)) :
    p.collect_particle.particles_collected = p.particles_collected + 1 ∧
    q.collect_particle.particles_collected = q.particles_collected + 1 ∧
    credit_step money total (l1 ++ p.collect_particle :: l2) = (money + 1, total + 1) := by
  refine ⟨rfl, rfl, ?_⟩
  have hsum : ((l1 ++ p.collect_particle :: l2).map Planet.particles_collected).sum
      = total + 1 := by
    subst htotal
    simp [Planet.collect_particle]
    ring
  unfold credit_step
  rw [hsum]
  push_cast
  simp only [Prod.mk.injEq]
  exact ⟨by ring, by trivial⟩

/-- Claim C1, witness for the amended theorem: a game holding 100 money and a
running total of 0 with one fresh planet gains exactly 1 money when that
planet collects a particle. -/
theorem collect_particle_credits_one_unit_witness :
    credit_step 100 0 [(Planet.init 0 0 48).collect_particle] = (100 + 1, 0 + 1) :=
  (collect_particle_credits_one_unit (Planet.init 0 0 48) (DwarfPlanet.init 0 0 18)
    100 0 [] [] (by simp [Planet.init])).2.2

/-! ## Claim C3 -/

/-- Claim C3, counterexample: DwarfPlanet.collect_particle does not multiply
gravity_distance by a factor greater than 1 — on a fresh dwarf planet the
gravity distance does not increase at all (it is left untouched, as is
air_resistance_intensity). -/
theorem dwarf_gravity_distance_not_grown :
    ¬ ((DwarfPlanet.init 0 0 18).gravity_distance
        < (DwarfPlanet.init 0 0 18).collect_particle.gravity_distance) := by
  simp [DwarfPlanet.collect_particle]

/-- Claim C3, amended: Planet.collect_particle multiplies radius by 1.002 and
mass, gravityDistance, airResistanceIntensity by 1.001; DwarfPlanet's version
multiplies radius by 1.001 and mass by 1.0005 only, leaving gravityDistance
and airResistanceIntensity unchanged.  For both kinds, radius, mass and
gravityDistance are monotonically non-decreasing across any sequence of
collect_particle calls (from non-negative starting values). -/
theorem collect_particle_growth (p : Planet) (q : DwarfPlanet) (n : ℕ)
    (hr : 0 ≤ p.radius) (hm : 0 ≤ p.mass) (hg : 0 ≤ p.gravity_distance)
    (hr' : 0 ≤ q.radius) (hm' : 0 ≤ q.mass) :
    (p.collect_particle.radius = p.radius * 1.002 ∧
     p.collect_particle.mass = p.mass * 1.001 ∧
     p.collect_particle.gravity_distance = p.gravity_distance * 1.001 ∧
     p.collect_particle.air_resistance_intensity = p.air_resistance_intensity * 1.001) ∧
    (q.collect_particle.radius = q.radius * 1.001 ∧
     q.collect_particle.mass = q.mass * 1.0005 ∧
     q.collect_particle.gravity_distance = q.gravity_distance ∧
     q.collect_particle.air_resistance_intensity = q.air_resistance_intensity) ∧
    ((Planet.collect_particle^[n] p).radius ≤ (Planet.collect_particle^[n + 1] p).radius ∧
     (Planet.collect_particle^[n] p).mass ≤ (Planet.collect_particle^[n + 1] p).mass ∧
     (Planet.collect_particle^[n] p).gravity_distance
       ≤ (Planet.collect_particle^[n + 1] p).gravity_distance) ∧
    ((DwarfPlanet.collect_particle^[n] q).radius
       ≤ (DwarfPlanet.collect_particle^[n + 1] q).radius ∧
     (DwarfPlanet.collect_particle^[n] q).mass
       ≤ (DwarfPlanet.collect_particle^[n + 1] q).mass ∧
     (DwarfPlanet.collect_particle^[n] q).gravity_distance
       ≤ (DwarfPlanet.collect_particle^[n + 1] q).gravity_distance) := by
  obtain ⟨e1, e2, e3, e4, -, -, -, -⟩ := Planet.collect_iterate p n
  obtain ⟨f1, f2, f3, f4, -, -, -, -⟩ := Planet.collect_iterate p (n + 1)
  obtain ⟨g1, g2, g3, g4⟩ := DwarfPlanet.collect_iterate_dwarf q n
  obtain ⟨k1, k2, k3, k4⟩ := DwarfPlanet.collect_iterate_dwarf q (n + 1)
  refine ⟨⟨rfl, rfl, rfl, rfl⟩, ⟨rfl, rfl, rfl, rfl⟩, ⟨?_, ?_, ?_⟩, ⟨?_, ?_, ?_⟩⟩
  · rw [e1, f1]
    have h := pow_le_pow_right₀ (by norm_num : (1 : ℝ) ≤ 1.002) (by omega : n ≤ n + 1)
    exact mul_le_mul_of_nonneg_left h hr
  · rw [e2, f2]
    have h := pow_le_pow_right₀ (by norm_num : (1 : ℝ) ≤ 1.001) (by omega : n ≤ n + 1)
    exact mul_le_mul_of_nonneg_left h hm
  · rw [e3, f3]
    have h := pow_le_pow_right₀ (by norm_num : (1 : ℝ) ≤ 1.001) (by omega : n ≤ n + 1)
    exact mul_le_mul_of_nonneg_left h hg
  · rw [g1, k1]
    have h := pow_le_pow_right₀ (by norm_num : (1 : ℝ) ≤ 1.001) (by omega : n ≤ n + 1)
    exact mul_le_mul_of_nonneg_left h hr'
  · rw [g2, k2]
    have h := pow_le_pow_right₀ (by norm_num : (1 : ℝ) ≤ 1.0005) (by omega : n ≤ n + 1)
    exact mul_le_mul_of_nonneg_left h hm'
  · rw [g3, k3]

/-- Claim C3, witness: on a fresh Planet (radius 48) and a fresh DwarfPlanet
(radius 18), one collection leaves the planet radius non-decreased. -/
theorem collect_particle_growth_witness :
    (Planet.collect_particle^[0] (Planet.init 0 0 48)).radius
      ≤ (Planet.collect_particle^[0 + 1] (Planet.init 0 0 48)).radius :=
  (collect_particle_growth (Planet.init 0 0 48) (DwarfPlanet.init 0 0 18) 0
    (by norm_num [Planet.init]) (by norm_num [Planet.init]) (by norm_num [Planet.init])
    (by norm_num [DwarfPlanet.init]) (by norm_num [DwarfPlanet.init])).2.2.1.1

/-! ## Claim C10 -/

/-- Claim C10: upgrade_gravity recomputes mass, gravity_distance and
air_resistance_intensity from the base values by the linear level formulas,
discarding the compounded multiplicative growth from collections; after 450
collections on a fresh planet, an upgrade strictly decreases all three. -/
theorem upgrade_gravity_resets_from_base (p : Planet) :
    (p.upgrade_gravity.mass
      = p.base_mass * (1 + ((p.upgrade_gravity.gravity_level : ℝ) - 1) * 0.5)) ∧
    (p.upgrade_gravity.gravity_distance
      = p.base_gravity_distance * (1 + ((p.upgrade_gravity.gravity_level : ℝ) - 1) * 0.3)) ∧
    (p.upgrade_gravity.air_resistance_intensity
      = p.base_air_resistance_intensity
          * (1 + ((p.upgrade_gravity.gravity_level : ℝ) - 1) * 0.4)) ∧
    (Planet.collect_particle^[450] (Planet.init 0 0 48)).upgrade_gravity.mass
      < (Planet.collect_particle^[450] (Planet.init 0 0 48)).mass ∧
    (Planet.collect_particle^[450] (Planet.init 0 0 48)).upgrade_gravity.gravity_distance
      < (Planet.collect_particle^[450] (Planet.init 0 0 48)).gravity_distance ∧
    (Planet.collect_particle^[450] (Planet.init 0 0 48)).upgrade_gravity.air_resistance_intensity
      < (Planet.collect_particle^[450] (Planet.init 0 0 48)).air_resistance_intensity := by
  obtain ⟨-, e2, e3, e4, e5, e6, e7, e8⟩ :=
    Planet.collect_iterate (Planet.init 0 0 48) 450
  refine ⟨?_, ?_, ?_, ?_, ?_, ?_⟩
  · simp only [Planet.upgrade_gravity]
  · simp only [Planet.upgrade_gravity]
  · simp only [Planet.upgrade_gravity]
  · simp only [Planet.upgrade_gravity, e2, e5, e8]
    norm_num [Planet.init]
  · simp only [Planet.upgrade_gravity, e3, e6, e8]
    norm_num [Planet.init]
  · simp only [Planet.upgrade_gravity, e4, e7, e8]
    norm_num [Planet.init]

/-! ## Claim C6 -/

/-- Length is zero exactly for a degenerate wall. -/
theorem Wall.length_eq_zero_iff (w : Wall) :
    w.length = 0 ↔ (w.x1 = w.x2 ∧ w.y1 = w.y2) := by
  unfold Wall.length
  rw [Real.sqrt_eq_zero (by positivity)]
  constructor
  · intro h
    have h1 : (w.x2 - w.x1) ^ 2 = 0 := by nlinarith [sq_nonneg (w.x2 - w.x1), sq_nonneg (w.y2 - w.y1)]
    have h2 : (w.y2 - w.y1) ^ 2 = 0 := by nlinarith [sq_nonneg (w.x2 - w.x1), sq_nonneg (w.y2 - w.y1)]
    constructor
    · have := pow_eq_zero_iff (n := 2) (by norm_num) |>.mp h1
      linarith
    · have := pow_eq_zero_iff (n := 2) (by norm_num) |>.mp h2
      linarith
  · rintro ⟨h1, h2⟩
    rw [← h1, ← h2]
    ring

/-- Claim C6: Wall.check_collision reports a collision exactly when the exact
point-to-segment distance (via the clamped-projection formula of the spec) is
strictly below the radius, and a degenerate wall with p1 = p2 never reports a
collision.  It is a pure function of its arguments by construction. -/
theorem check_collision_exact_segment (w : Wall) (px py radius : ℝ) :
    ((w.x1 = w.x2 ∧ w.y1 = w.y2) → ¬ (w.check_collision px py radius).1) ∧
    (¬ (w.x1 = w.x2 ∧ w.y1 = w.y2) →
      ((w.check_collision px py radius).1 ↔ specPointSegmentDist w px py < radius)) := by
  constructor
  · intro hdeg
    have h0 : w.length = 0 := (Wall.length_eq_zero_iff w).mpr hdeg
    unfold Wall.check_collision
    rw [if_pos h0]
    exact not_false
  · intro hdeg
    have h0 : w.length ≠ 0 := fun h => hdeg ((Wall.length_eq_zero_iff w).mp h)
    have hsq : w.length ^ 2 = (w.x2 - w.x1) ^ 2 + (w.y2 - w.y1) ^ 2 :=
      Real.sq_sqrt (by positivity)
    unfold Wall.check_collision specPointSegmentDist
    rw [if_neg h0]
    simp only [hsq]
    split_ifs with hlt
    · simpa using hlt
    · simpa using hlt

/-- Claim C6, witness: for the wall from (0,0) to (10,0), the point (5,3)
with radius 4 collides (its segment distance is 3). -/
theorem check_collision_exact_segment_witness :
    (Wall.check_collision ⟨0, 0, 10, 0⟩ 5 3 4).1 := by
  have hdist : specPointSegmentDist ⟨0, 0, 10, 0⟩ 5 3 = 3 := by
    unfold specPointSegmentDist
    have ht : max (0 : ℝ)
        (min 1 (((5 - 0) * (10 - 0) + (3 - 0) * (0 - 0)) / ((10 - 0) ^ 2 + (0 - 0) ^ 2)))
        = 1 / 2 := by norm_num
    simp only [ht]
    apply sqrt_eval (by norm_num)
    norm_num
  exact ((check_collision_exact_segment ⟨0, 0, 10, 0⟩ 5 3 4).2 (by norm_num)).mpr
    (by rw [hdist]; norm_num)

/-! ## Claim C7 -/

/-- Claim C7: a wall's stored normal is a unit vector (for a non-degenerate
wall); the bounce response reflects the velocity about the normal
(v' = v - 2 (v . n) n) and scales both components by the 0.8 energy-loss
factor, and displaces the position by radius + 1 along the normal; in the
claim's scenario — incoming velocity (5,0), wall normal (0,1) — the outgoing
velocity is (4, 0). -/
theorem wall_bounce_reflection (w : Wall) (p : Particle) (nx ny : ℝ)
    (hw : w.length ≠ 0) :
    (w.nx ^ 2 + w.ny ^ 2 = 1) ∧
    ((wall_bounce p nx ny).vx = 0.8 * (p.vx - 2 * (p.vx * nx + p.vy * ny) * nx) ∧
     (wall_bounce p nx ny).vy = 0.8 * (p.vy - 2 * (p.vx * nx + p.vy * ny) * ny) ∧
     (wall_bounce p nx ny).x = p.x + nx * (p.radius + 1) ∧
     (wall_bounce p nx ny).y = p.y + ny * (p.radius + 1)) ∧
    (p.vx = 5 → p.vy = 0 → (wall_bounce p 0 1).vx = 4 ∧ (wall_bounce p 0 1).vy = 0) := by
  have hl : 0 < w.length := lt_of_le_of_ne (Real.sqrt_nonneg _) (Ne.symm hw)
  have hsq : w.length ^ 2 = (w.x2 - w.x1) ^ 2 + (w.y2 - w.y1) ^ 2 :=
    Real.sq_sqrt (by positivity)
  refine ⟨?_, ⟨?_, ?_, ?_, ?_⟩, ?_⟩
  · unfold Wall.nx Wall.ny
    rw [if_pos hl, if_pos hl]
    field_simp
    linarith [hsq]
  · unfold wall_bounce
    ring
  · unfold wall_bounce
    ring
  · unfold wall_bounce
    ring
  · unfold wall_bounce
    ring
  · intro h5 h0
    unfold wall_bounce
    rw [h5, h0]
    norm_num

/-- Claim C7, witness: the wall from (0,0) to (10,0) has a unit normal, and a
particle with velocity (5,0) bouncing against normal (0,1) leaves with
velocity (4,0). -/
theorem wall_bounce_reflection_witness :
    (Wall.nx ⟨0, 0, 10, 0⟩ ^ 2 + Wall.ny ⟨0, 0, 10, 0⟩ ^ 2 = 1) ∧
    (wall_bounce (Particle.init 0 0 5 0) 0 1).vx = 4 ∧
    (wall_bounce (Particle.init 0 0 5 0) 0 1).vy = 0 := by
  have hlen : (Wall.mk 0 0 10 0).length = 10 := by
    unfold Wall.length
    exact sqrt_eval (by norm_num) (by norm_num)
  have h := wall_bounce_reflection ⟨0, 0, 10, 0⟩ (Particle.init 0 0 5 0) 0 1
    (by rw [hlen]; norm_num)
  exact ⟨h.1, (h.2.2 rfl rfl).1, (h.2.2 rfl rfl).2⟩

/-! ## Claim C4 -/

/-- The piecewise distance factor has a closed min/max form (the two branches
agree at the boundary, which is the substance of the continuity claim). -/
theorem distance_factor_eq_min_max (pl : Planet) (d : ℝ) :
    pl.distance_factor d = min 1 (max 0 (1 - (d - pl.gravity_distance) / 200)) := by
  unfold Planet.distance_factor
  split_ifs with h
  · have hv : (1 : ℝ) ≤ 1 - (d - pl.gravity_distance) / 200 := by
      have : d - pl.gravity_distance < 0 := by linarith
      nlinarith
    rw [max_eq_right (by linarith), min_eq_left hv]
  · have hv : 1 - (d - pl.gravity_distance) / 200 ≤ 1 := by
      have h0 : 0 ≤ d - pl.gravity_distance := by linarith
      have h1 : 0 ≤ (d - pl.gravity_distance) / 200 := by positivity
      linarith
    rw [min_eq_right (max_le (by norm_num) hv)]

/-- Claim C4: at centre distance d with 0 < d the gravitational force equals
planet.mass * particle.mass / d^1.5 * 2 (the particle mass is the constant 1
set by the constructor) inside gravity_distance, ramps linearly to zero over
the 200-unit fade zone beyond it (reaching exactly 0 at gravity_distance +
200), and is continuous at the gravity_distance boundary. -/
theorem gravity_force_profile (pl : Planet) (p : Particle) (d : ℝ)
    (hd : 0 < d) (hm : p.mass = 1) :
    (d < pl.gravity_distance → pl.gravity_force d = pl.mass * p.mass / d ^ (1.5 : ℝ) * 2) ∧
    (pl.gravity_distance ≤ d →
      pl.gravity_force d = pl.mass * p.mass / d ^ (1.5 : ℝ) * 2
          * max 0 (1 - (d - pl.gravity_distance) / 200)) ∧
    (0 < pl.gravity_distance → pl.gravity_force (pl.gravity_distance + 200) = 0) ∧
    (0 < pl.gravity_distance → ContinuousAt pl.gravity_force pl.gravity_distance) := by
  refine ⟨?_, ?_, ?_, ?_⟩
  · intro h
    unfold Planet.gravity_force Planet.distance_factor
    rw [if_pos h, hm]
    ring
  · intro h
    unfold Planet.gravity_force Planet.distance_factor
    rw [if_neg (not_lt.mpr h), hm]
    ring
  · intro hgd
    unfold Planet.gravity_force Planet.distance_factor
    rw [if_neg (by linarith)]
    norm_num
  · intro hgd
    have heq : pl.gravity_force
        = fun d => pl.mass / d ^ (1.5 : ℝ) * 2
            * min 1 (max 0 (1 - (d - pl.gravity_distance) / 200)) := by
      funext t
      rw [← distance_factor_eq_min_max]
      rfl
    rw [heq]
    have hbase : ContinuousAt (fun t : ℝ => pl.mass / t ^ (1.5 : ℝ) * 2)
        pl.gravity_distance := by
      have hr : ContinuousAt (fun t : ℝ => t ^ (1.5 : ℝ)) pl.gravity_distance :=
        Real.continuousAt_rpow_const pl.gravity_distance 1.5 (Or.inl (ne_of_gt hgd))
      have hne : pl.gravity_distance ^ (1.5 : ℝ) ≠ 0 :=
        (Real.rpow_pos_of_pos hgd 1.5).ne'
      exact ((continuousAt_const.div hr hne).mul continuousAt_const)
    have hfac : Continuous
        (fun t : ℝ => min 1 (max 0 (1 - (t - pl.gravity_distance) / 200))) := by
      fun_prop
    exact hbase.mul hfac.continuousAt

/-- Claim C4, witness: for a fresh planet (mass 96, gravity distance 500) and
a particle of mass 1, the force at distance 5 follows the full-strength
formula and the force profile is continuous at the boundary distance 500. -/
theorem gravity_force_profile_witness :
    (Planet.init 0 0 48).gravity_force 5
      = (Planet.init 0 0 48).mass * (Particle.init 0 0 1 0).mass / (5 : ℝ) ^ (1.5 : ℝ) * 2 ∧
    ContinuousAt (Planet.init 0 0 48).gravity_force (Planet.init 0 0 48).gravity_distance := by
  have h := gravity_force_profile (Planet.init 0 0 48) (Particle.init 0 0 1 0) 5
    (by norm_num) rfl
  exact ⟨h.1 (by norm_num [Planet.init]), h.2.2.2 (by norm_num [Planet.init])⟩

/-! ## Structure of the planet loop and wall loop -/

@[simp] theorem clone_step_x (q : Particle) : q.clone_step.x = q.x := by
  simp only [Particle.clone_step]; split_ifs <;> simp

@[simp] theorem clone_step_y (q : Particle) : q.clone_step.y = q.y := by
  simp only [Particle.clone_step]; split_ifs <;> simp

@[simp] theorem clone_step_radius (q : Particle) : q.clone_step.radius = q.radius := by
  simp only [Particle.clone_step]; split_ifs <;> simp

@[simp] theorem clone_step_mass (q : Particle) : q.clone_step.mass = q.mass := by
  simp only [Particle.clone_step]; split_ifs <;> simp

@[simp] theorem clone_step_alive (q : Particle) : q.clone_step.alive = q.alive := by
  simp only [Particle.clone_step]; split_ifs <;> simp

@[simp] theorem clone_step_exploding (q : Particle) : q.clone_step.exploding = q.exploding := by
  simp only [Particle.clone_step]; split_ifs <;> simp

@[simp] theorem clone_step_fading (q : Particle) : q.clone_step.fading = q.fading := by
  simp only [Particle.clone_step]; split_ifs <;> simp

@[simp] theorem clone_step_age (q : Particle) : q.clone_step.age = q.age := by
  simp only [Particle.clone_step]; split_ifs <;> simp

@[simp] theorem clone_step_lifetime (q : Particle) : q.clone_step.lifetime = q.lifetime := by
  simp only [Particle.clone_step]; split_ifs <;> simp

@[simp] theorem clone_step_explosion_timer (q : Particle) :
    q.clone_step.explosion_timer = q.explosion_timer := by
  simp only [Particle.clone_step]; split_ifs <;> simp

@[simp] theorem clone_step_fade_timer (q : Particle) :
    q.clone_step.fade_timer = q.fade_timer := by
  simp only [Particle.clone_step]; split_ifs <;> simp

@[simp] theorem clone_step_cloned (q : Particle) : q.clone_step.cloned = q.cloned := by
  simp only [Particle.clone_step]; split_ifs <;> simp

@[simp] theorem air_step_x (pl : Planet) (d : ℝ) (q : Particle) :
    (air_step pl d q).x = q.x := by
  simp only [air_step]; split_ifs <;> simp

@[simp] theorem air_step_y (pl : Planet) (d : ℝ) (q : Particle) :
    (air_step pl d q).y = q.y := by
  simp only [air_step]; split_ifs <;> simp

@[simp] theorem air_step_radius (pl : Planet) (d : ℝ) (q : Particle) :
    (air_step pl d q).radius = q.radius := by
  simp only [air_step]; split_ifs <;> simp

@[simp] theorem air_step_mass (pl : Planet) (d : ℝ) (q : Particle) :
    (air_step pl d q).mass = q.mass := by
  simp only [air_step]; split_ifs <;> simp

@[simp] theorem air_step_alive (pl : Planet) (d : ℝ) (q : Particle) :
    (air_step pl d q).alive = q.alive := by
  simp only [air_step]; split_ifs <;> simp

@[simp] theorem air_step_exploding (pl : Planet) (d : ℝ) (q : Particle) :
    (air_step pl d q).exploding = q.exploding := by
  simp only [air_step]; split_ifs <;> simp

@[simp] theorem air_step_fading (pl : Planet) (d : ℝ) (q : Particle) :
    (air_step pl d q).fading = q.fading := by
  simp only [air_step]; split_ifs <;> simp

@[simp] theorem air_step_age (pl : Planet) (d : ℝ) (q : Particle) :
    (air_step pl d q).age = q.age := by
  simp only [air_step]; split_ifs <;> simp

@[simp] theorem air_step_lifetime (pl : Planet) (d : ℝ) (q : Particle) :
    (air_step pl d q).lifetime = q.lifetime := by
  simp only [air_step]; split_ifs <;> simp

@[simp] theorem air_step_explosion_timer (pl : Planet) (d : ℝ) (q : Particle) :
    (air_step pl d q).explosion_timer = q.explosion_timer := by
  simp only [air_step]; split_ifs <;> simp

@[simp] theorem air_step_fade_timer (pl : Planet) (d : ℝ) (q : Particle) :
    (air_step pl d q).fade_timer = q.fade_timer := by
  simp only [air_step]; split_ifs <;> simp

@[simp] theorem air_step_cloned (pl : Planet) (d : ℝ) (q : Particle) :
    (air_step pl d q).cloned = q.cloned := by
  simp only [air_step]; split_ifs <;> simp

@[simp] theorem air_step_pending (pl : Planet) (d : ℝ) (q : Particle) :
    (air_step pl d q).pending = q.pending := by
  simp only [air_step]; split_ifs <;> simp

@[simp] theorem wall_bounce_alive (p : Particle) (nx ny : ℝ) :
    (wall_bounce p nx ny).alive = p.alive := rfl

@[simp] theorem wall_bounce_exploding (p : Particle) (nx ny : ℝ) :
    (wall_bounce p nx ny).exploding = p.exploding := rfl

@[simp] theorem wall_bounce_fading (p : Particle) (nx ny : ℝ) :
    (wall_bounce p nx ny).fading = p.fading := rfl

@[simp] theorem wall_bounce_age (p : Particle) (nx ny : ℝ) :
    (wall_bounce p nx ny).age = p.age := rfl

@[simp] theorem wall_bounce_lifetime (p : Particle) (nx ny : ℝ) :
    (wall_bounce p nx ny).lifetime = p.lifetime := rfl

@[simp] theorem wall_bounce_cloned (p : Particle) (nx ny : ℝ) :
    (wall_bounce p nx ny).cloned = p.cloned := rfl

@[simp] theorem wall_bounce_pending (p : Particle) (nx ny : ℝ) :
    (wall_bounce p nx ny).pending = p.pending := rfl

@[simp] theorem wall_loop_alive (p : Particle) (ws : List Wall) :
    (wall_loop p ws).alive = p.alive := by
  induction ws with
  | nil => rfl
  | cons w ws ih => simp only [wall_loop]; split_ifs <;> simp [ih]

@[simp] theorem wall_loop_exploding (p : Particle) (ws : List Wall) :
    (wall_loop p ws).exploding = p.exploding := by
  induction ws with
  | nil => rfl
  | cons w ws ih => simp only [wall_loop]; split_ifs <;> simp [ih]

@[simp] theorem wall_loop_fading (p : Particle) (ws : List Wall) :
    (wall_loop p ws).fading = p.fading := by
  induction ws with
  | nil => rfl
  | cons w ws ih => simp only [wall_loop]; split_ifs <;> simp [ih]

@[simp] theorem wall_loop_age (p : Particle) (ws : List Wall) :
    (wall_loop p ws).age = p.age := by
  induction ws with
  | nil => rfl
  | cons w ws ih => simp only [wall_loop]; split_ifs <;> simp [ih]

@[simp] theorem wall_loop_lifetime (p : Particle) (ws : List Wall) :
    (wall_loop p ws).lifetime = p.lifetime := by
  induction ws with
  | nil => rfl
  | cons w ws ih => simp only [wall_loop]; split_ifs <;> simp [ih]

@[simp] theorem wall_loop_cloned (p : Particle) (ws : List Wall) :
    (wall_loop p ws).cloned = p.cloned := by
  induction ws with
  | nil => rfl
  | cons w ws ih => simp only [wall_loop]; split_ifs <;> simp [ih]

@[simp] theorem wall_loop_pending (p : Particle) (ws : List Wall) :
    (wall_loop p ws).pending = p.pending := by
  induction ws with
  | nil => rfl
  | cons w ws ih => simp only [wall_loop]; split_ifs <;> simp [ih]

/-- Each planet-loop iteration either returns early with a no-longer-alive
particle (planet collision) or falls through changing only velocity, the
cloned flag and the pending clone list. -/
theorem planet_step_spec (q : Particle) (aff : Bool) (pl : Planet) :
    (∃ r c, planet_step q aff pl = LoopOut.ret r c ∧ r.alive = false ∧
      r.age = q.age ∧ r.x = q.x ∧ r.y = q.y ∧ r.fading = q.fading ∧
      r.radius = q.radius) ∨
    (∃ q2 aff2, planet_step q aff pl = LoopOut.go q2 aff2 ∧
      q2.x = q.x ∧ q2.y = q.y ∧ q2.radius = q.radius ∧ q2.mass = q.mass ∧
      q2.alive = q.alive ∧ q2.exploding = q.exploding ∧ q2.fading = q.fading ∧
      q2.age = q.age ∧ q2.lifetime = q.lifetime ∧
      q2.explosion_timer = q.explosion_timer ∧ q2.fade_timer = q.fade_timer) := by
  simp only [planet_step]
  split_ifs <;>
    first
    | (left
       exact ⟨_, _, rfl, by simp, by simp, by simp, by simp, by simp, by simp⟩)
    | (right
       exact ⟨_, _, rfl, by simp, by simp, by simp, by simp, by simp, by simp,
         by simp, by simp, by simp, by simp, by simp⟩)

/-- The planet loop either returns early with a no-longer-alive particle or
falls through with only velocity, cloned flag and pending clones changed. -/
theorem planet_loop_spec (l : List Planet) : ∀ (q : Particle) (aff : Bool),
    (∃ r c, planet_loop q aff l = LoopOut.ret r c ∧ r.alive = false) ∨
    (∃ q2 aff2, planet_loop q aff l = LoopOut.go q2 aff2 ∧
      q2.x = q.x ∧ q2.y = q.y ∧ q2.radius = q.radius ∧ q2.mass = q.mass ∧
      q2.alive = q.alive ∧ q2.exploding = q.exploding ∧ q2.fading = q.fading ∧
      q2.age = q.age ∧ q2.lifetime = q.lifetime ∧
      q2.explosion_timer = q.explosion_timer ∧ q2.fade_timer = q.fade_timer) := by
  induction l with
  | nil =>
    intro q aff
    right
    exact ⟨q, aff, rfl, rfl, rfl, rfl, rfl, rfl, rfl, rfl, rfl, rfl, rfl, rfl⟩
  | cons pl rest ih =>
    intro q aff
    rcases planet_step_spec q aff pl with ⟨r, c, heq, hal, -⟩ | ⟨q2, aff2, heq, hf⟩
    · left
      exact ⟨r, c, by simp only [planet_loop, heq], hal⟩
    · obtain ⟨h1, h2, h3, h4, h5, h6, h7, h8, h9, h10, h11⟩ := hf
      rcases ih q2 aff2 with ⟨r, c, heq2, hal⟩ | ⟨q3, aff3, heq2, hf2⟩
      · left
        exact ⟨r, c, by simp only [planet_loop, heq]; exact heq2, hal⟩
      · obtain ⟨g1, g2, g3, g4, g5, g6, g7, g8, g9, g10, g11⟩ := hf2
        right
        refine ⟨q3, aff3, by simp only [planet_loop, heq]; exact heq2, ?_⟩
        simp_all

@[simp] theorem post_loop_exploding (env : Env) (q : Particle) (aff : Bool) :
    (post_loop env q aff).exploding = q.exploding := by
  simp only [post_loop]; split_ifs <;> simp

@[simp] theorem post_loop_fading (env : Env) (q : Particle) (aff : Bool) :
    (post_loop env q aff).fading = q.fading := by
  simp only [post_loop]; split_ifs <;> simp

@[simp] theorem post_loop_lifetime (env : Env) (q : Particle) (aff : Bool) :
    (post_loop env q aff).lifetime = q.lifetime := by
  simp only [post_loop]; split_ifs <;> simp

@[simp] theorem post_loop_cloned (env : Env) (q : Particle) (aff : Bool) :
    (post_loop env q aff).cloned = q.cloned := by
  simp only [post_loop]; split_ifs <;> simp

@[simp] theorem post_loop_pending (env : Env) (q : Particle) (aff : Bool) :
    (post_loop env q aff).pending = q.pending := by
  simp only [post_loop]; split_ifs <;> simp

@[simp] theorem post_loop_age (env : Env) (q : Particle) (aff : Bool) :
    (post_loop env q aff).age = (if aff then q.age else q.age + env.dt) := by
  simp only [post_loop]; split_ifs <;> simp

theorem post_loop_alive_cases (env : Env) (q : Particle) (aff : Bool) :
    (post_loop env q aff).alive = q.alive ∨ (post_loop env q aff).alive = false := by
  simp only [post_loop]; split_ifs <;> simp

theorem planet_loop_ret_alive {l : List Planet} {q : Particle} {aff : Bool}
    {r : Particle} {c : Planet}
    (heq : planet_loop q aff l = LoopOut.ret r c) : r.alive = false := by
  rcases planet_loop_spec l q aff with ⟨r', c', heq', hal⟩ | ⟨q2, aff2, heq', -⟩
  · rw [heq] at heq'
    injection heq' with h1 h2
    rw [h1]
    exact hal
  · rw [heq] at heq'
    exact absurd heq' (by simp)

theorem planet_loop_go_fields {l : List Planet} {q : Particle} {aff : Bool}
    {q2 : Particle} {aff2 : Bool}
    (heq : planet_loop q aff l = LoopOut.go q2 aff2) :
    q2.x = q.x ∧ q2.y = q.y ∧ q2.radius = q.radius ∧ q2.mass = q.mass ∧
    q2.alive = q.alive ∧ q2.exploding = q.exploding ∧ q2.fading = q.fading ∧
    q2.age = q.age ∧ q2.lifetime = q.lifetime ∧
    q2.explosion_timer = q.explosion_timer ∧ q2.fade_timer = q.fade_timer := by
  rcases planet_loop_spec l q aff with ⟨r', c', heq', -⟩ | ⟨q2', aff2', heq', hf⟩
  · rw [heq] at heq'
    exact absurd heq' (by simp)
  · rw [heq] at heq'
    injection heq' with h1 h2
    rw [h1]
    exact hf

/-! ## Claim C5 -/

theorem lifecycle_dead_iff (p : Particle) :
    p.lifecycle_state = PState.dead ↔ p.alive = false := by
  unfold Particle.lifecycle_state
  split_ifs with h1 h2 h3 <;> simp_all

theorem lifecycle_state_eq_of_flags (a b : Particle)
    (h1 : a.alive = b.alive) (h2 : a.exploding = b.exploding)
    (h3 : a.fading = b.fading) : a.lifecycle_state = b.lifecycle_state := by
  unfold Particle.lifecycle_state
  rw [h1, h2, h3]

theorem allowed_step_dead (s : PState) : allowed_step s PState.dead = true := by
  cases s <;> rfl

/-- Claim C5, amended: in one update call the state moves only along
Alive to Alive/Fading/Dead, Fading to Fading/Dead, Exploding to
Exploding/Dead, Dead to Dead — so Fading never becomes Exploding — and a
Dead particle is returned completely unchanged.  (Compared with the claim as
stated, Alive to Dead does occur: on planet collision the code also clears
the alive flag in the same tick, and the world-limit despawn kills outright;
see the counterexample.) -/
theorem lifecycle_transitions (env : Env) (p : Particle) :
    allowed_step p.lifecycle_state (Particle.update env p).lifecycle_state = true ∧
    (p.lifecycle_state = PState.dead → Particle.update env p = p) := by
  by_cases ha : p.alive = false
  · have hupd : Particle.update env p = p := by
      unfold Particle.update
      rw [if_pos ha]
    refine ⟨?_, fun _ => hupd⟩
    rw [hupd, (lifecycle_dead_iff p).mpr ha]
    exact allowed_step_dead _
  · have hnd : p.lifecycle_state ≠ PState.dead := fun h => ha ((lifecycle_dead_iff p).mp h)
    refine ⟨?_, fun h => absurd h hnd⟩
    simp only [Particle.update]
    rw [if_neg ha]
    split_ifs <;>
      first
      | (split <;>
          (rename_i w1 w2 heq
           first
           | (rw [(lifecycle_dead_iff w1).mpr (planet_loop_ret_alive heq)]
              exact allowed_step_dead _)
           | (obtain ⟨f1, f2, f3, f4, f5, f6, f7, f8, f9, f10, f11⟩ :=
                planet_loop_go_fields heq
              rcases post_loop_alive_cases env w1 w2 with hpa | hpa
              · have h1 : (post_loop env w1 w2).lifecycle_state = w1.lifecycle_state :=
                  lifecycle_state_eq_of_flags _ _ hpa (post_loop_exploding env w1 w2)
                    (post_loop_fading env w1 w2)
                have h2 := lifecycle_state_eq_of_flags _ _ f5 f6 f7
                rw [h1, h2]
                simp_all [Particle.lifecycle_state, allowed_step]
              · rw [(lifecycle_dead_iff _).mpr hpa]
                exact allowed_step_dead _)))
      | (simp_all [Particle.lifecycle_state, allowed_step]
         done)

/-- Claim C5, counterexample: an Alive particle beyond the world limit
(x = 200000) becomes Dead in a single update (the world-limit despawn is a
direct Alive-to-Dead transition, which the claim says never occurs). -/
theorem alive_to_dead_transition :
    (Particle.init 200000 0 0 0).lifecycle_state = PState.alive ∧
    (Particle.update ⟨1, [], []⟩ (Particle.init 200000 0 0 0)).lifecycle_state
      = PState.dead := by
  constructor
  · rfl
  · norm_num [Particle.update, Particle.init, planet_loop, post_loop, wall_loop,
      Particle.lifecycle_state]

/-! ## Claim C2 -/

theorem collides_with_congr {q q' : Particle} (hx : q'.x = q.x) (hy : q'.y = q.y)
    (hr : q'.radius = q.radius) (pl : Planet) :
    collides_with q' pl ↔ collides_with q pl := by
  unfold collides_with
  rw [hx, hy, hr]

theorem exerts_gravity_congr {q q' : Particle} (hx : q'.x = q.x) (hy : q'.y = q.y)
    (pl : Planet) : exerts_gravity q' pl ↔ exerts_gravity q pl := by
  unfold exerts_gravity
  rw [hx, hy]

theorem lifecycle_alive_iff (p : Particle) :
    p.lifecycle_state = PState.alive ↔
      (p.alive = true ∧ p.exploding = false ∧ p.fading = false) := by
  unfold Particle.lifecycle_state
  split_ifs <;> simp_all

theorem planet_step_no_collision (q : Particle) (aff : Bool) (pl : Planet)
    (h : ¬ collides_with q pl) :
    ∃ q2 aff2, planet_step q aff pl = LoopOut.go q2 aff2 ∧
      q2.x = q.x ∧ q2.y = q.y ∧ q2.radius = q.radius ∧
      (aff2 = true ↔ (aff = true ∨ exerts_gravity q pl)) := by
  unfold collides_with at h
  simp only [planet_step, apply_ite Particle.radius, clone_step_radius, ite_self]
  rw [if_neg h]
  by_cases hpos : 0 < Real.sqrt ((pl.x - q.x) ^ 2 + (pl.y - q.y) ^ 2)
  · rw [if_pos hpos]
    by_cases hfor : 0 < pl.gravity_force (Real.sqrt ((pl.x - q.x) ^ 2 + (pl.y - q.y) ^ 2))
    · simp only [if_pos hfor]
      refine ⟨_, _, rfl, by simp [apply_ite Particle.x], by simp [apply_ite Particle.y],
        by simp [apply_ite Particle.radius], ?_⟩
      simp [exerts_gravity, hpos, hfor]
    · simp only [if_neg hfor]
      refine ⟨_, _, rfl, by simp [apply_ite Particle.x], by simp [apply_ite Particle.y],
        by simp [apply_ite Particle.radius], ?_⟩
      simp [exerts_gravity, hfor]
  · rw [if_neg hpos]
    refine ⟨_, _, rfl, by simp [apply_ite Particle.x], by simp [apply_ite Particle.y],
      by simp [apply_ite Particle.radius], ?_⟩
    simp [exerts_gravity, hpos]

theorem planet_loop_no_collision (l : List Planet) : ∀ (q : Particle) (aff : Bool),
    (∀ pl ∈ l, ¬ collides_with q pl) →
    ∃ q2 aff2, planet_loop q aff l = LoopOut.go q2 aff2 ∧
      q2.x = q.x ∧ q2.y = q.y ∧ q2.radius = q.radius ∧
      (aff2 = true ↔ (aff = true ∨ ∃ pl ∈ l, exerts_gravity q pl)) := by
  induction l with
  | nil =>
    intro q aff h
    exact ⟨q, aff, rfl, rfl, rfl, rfl, by simp⟩
  | cons pl rest ih =>
    intro q aff h
    obtain ⟨q2, aff2, heq, hx, hy, hr, hiff⟩ :=
      planet_step_no_collision q aff pl (h pl (by simp))
    obtain ⟨q3, aff3, heq2, hx2, hy2, hr2, hiff2⟩ :=
      ih q2 aff2 (fun pl' hpl' hc =>
        h pl' (by simp [hpl']) ((collides_with_congr hx hy hr pl').mp hc))
    refine ⟨q3, aff3, ?_, by rw [hx2, hx], by rw [hy2, hy], by rw [hr2, hr], ?_⟩
    · simp only [planet_loop, heq]
      exact heq2
    · rw [hiff2, hiff]
      have hcongr : (∃ pl' ∈ rest, exerts_gravity q2 pl')
          ↔ (∃ pl' ∈ rest, exerts_gravity q pl') :=
        exists_congr fun pl' => and_congr_right fun _ => exerts_gravity_congr hx hy pl'
      rw [hcongr, List.exists_mem_cons_iff]
      exact or_assoc

theorem planet_loop_no_ret {l : List Planet} {q : Particle} {aff : Bool}
    {r : Particle} {c : Planet} (h : ∀ pl ∈ l, ¬ collides_with q pl) :
    planet_loop q aff l ≠ LoopOut.ret r c := by
  obtain ⟨q2, aff2, heq, -⟩ := planet_loop_no_collision l q aff h
  intro hcon
  rw [heq] at hcon
  exact absurd hcon (by simp)

theorem planet_loop_go_affected {l : List Planet} {q : Particle} {aff : Bool}
    {q2 : Particle} {aff2 : Bool}
    (heq : planet_loop q aff l = LoopOut.go q2 aff2)
    (h : ∀ pl ∈ l, ¬ collides_with q pl) :
    (aff2 = true ↔ (aff = true ∨ ∃ pl ∈ l, exerts_gravity q pl)) := by
  obtain ⟨q2', aff2', heq', -, -, -, hiff⟩ := planet_loop_no_collision l q aff h
  rw [heq] at heq'
  injection heq' with h1 h2
  rw [h2]
  exact hiff

theorem update_age_aux (env : Env) (P p : Particle)
    (hx : P.x = p.x) (hy : P.y = p.y) (hr : P.radius = p.radius) (hage : P.age = p.age)
    (hnc : ∀ pl ∈ env.planets, ¬ collides_with p pl) :
    ∃ b : Bool, (match planet_loop P false env.planets with
        | LoopOut.ret q _ => q
        | LoopOut.go q aff => post_loop env q aff).age
        = (if b then p.age else p.age + env.dt) ∧
      (b = true ↔ ∃ pl ∈ env.planets, exerts_gravity p pl) := by
  obtain ⟨q2, aff2, heq, hx2, hy2, hr2, hiff⟩ :=
    planet_loop_no_collision env.planets P false
      (fun pl hpl hc => hnc pl hpl ((collides_with_congr hx hy hr pl).mp hc))
  obtain ⟨-, -, -, -, -, -, -, f8, -, -, -⟩ := planet_loop_go_fields heq
  rw [heq]
  refine ⟨aff2, ?_, ?_⟩
  · rw [post_loop_age, f8, hage]
  · rw [hiff]
    simp only [Bool.false_eq_true, false_or]
    exact exists_congr fun pl => and_congr_right fun _ => exerts_gravity_congr hx hy pl

/-- Claim C2, amended: for an Alive particle on a tick in which it collides
with no planet, the age is not incremented when at least one planet exerts a
non-zero gravitational force during the update, and otherwise increases by
exactly dt.  (The collision proviso is forced by the counterexample: a
colliding particle returns early before the aging step, so its age also
stays unchanged even with no force exerted.) -/
theorem age_suppression (env : Env) (p : Particle)
    (hst : p.lifecycle_state = PState.alive)
    (hnc : ∀ pl ∈ env.planets, ¬ collides_with p pl) :
    ((∃ pl ∈ env.planets, exerts_gravity p pl) → (Particle.update env p).age = p.age) ∧
    (¬ (∃ pl ∈ env.planets, exerts_gravity p pl) →
      (Particle.update env p).age = p.age + env.dt) := by
  obtain ⟨ha, he, hf⟩ := (lifecycle_alive_iff p).mp hst
  have key : ∃ b : Bool, (Particle.update env p).age = (if b then p.age else p.age + env.dt) ∧
      (b = true ↔ ∃ pl ∈ env.planets, exerts_gravity p pl) := by
    simp only [Particle.update]
    rw [if_neg (by simp [ha])]
    split_ifs <;>
      first
      | (exact update_age_aux env _ p (by simp) (by simp) (by simp) (by simp) hnc)
      | (exfalso; simp_all)
  obtain ⟨b, hage, hb⟩ := key
  constructor
  · intro hex
    rw [hage, hb.mpr hex]
    simp
  · intro hex
    have hbf : b = false := by simpa using mt hb.mp hex
    rw [hage, hbf]
    simp

/-- Claim C2, witness for the amended theorem: with no planets at all, an
Alive particle ages by exactly dt = 1 in one update. -/
theorem age_suppression_witness :
    (Particle.update ⟨1, [], []⟩ (Particle.init 0 0 1 0)).age
      = (Particle.init 0 0 1 0).age + 1 :=
  (age_suppression ⟨1, [], []⟩ (Particle.init 0 0 1 0) rfl (by simp)).2 (by simp)

/-- Claim C2, counterexample: an Alive particle colliding with a massless
planet (no planet exerts any gravitational force that tick) returns early
from update with its age unchanged — not increased by dt as the claim's
"otherwise" branch requires. -/
theorem age_not_incremented_on_collision :
    (∀ pl ∈ [Planet.init 1 0 0], ¬ exerts_gravity (Particle.init 0 0 1 0) pl) ∧
    (Particle.init 0 0 1 0).lifecycle_state = PState.alive ∧
    (Particle.update ⟨1, [Planet.init 1 0 0], []⟩ (Particle.init 0 0 1 0)).age
      = (Particle.init 0 0 1 0).age ∧
    (Particle.update ⟨1, [Planet.init 1 0 0], []⟩ (Particle.init 0 0 1 0)).age
      ≠ (Particle.init 0 0 1 0).age + 1 := by
  have hd : Real.sqrt (((Planet.init 1 0 0).x - (Particle.init 0 0 1 0).x) ^ 2
      + ((Planet.init 1 0 0).y - (Particle.init 0 0 1 0).y) ^ 2) = 1 := by
    norm_num [Planet.init, Particle.init]
  refine ⟨?_, rfl, ?_, ?_⟩
  · intro pl hpl
    simp only [List.mem_singleton] at hpl
    subst hpl
    unfold exerts_gravity
    rw [hd]
    norm_num [Planet.gravity_force, Planet.init]
  · norm_num [Particle.update, Particle.init, Planet.init, planet_loop, planet_step,
      Real.sqrt_one]
  · norm_num [Particle.update, Particle.init, Planet.init, planet_loop, planet_step,
      Real.sqrt_one]

/-! ## Claim C8 -/

theorem Particle.ext' (a b : Particle) (h1 : a.x = b.x) (h2 : a.y = b.y)
    (h3 : a.vx = b.vx) (h4 : a.vy = b.vy) (h5 : a.radius = b.radius)
    (h6 : a.mass = b.mass) (h7 : a.alive = b.alive) (h8 : a.exploding = b.exploding)
    (h9 : a.fading = b.fading) (h10 : a.explosion_timer = b.explosion_timer)
    (h11 : a.fade_timer = b.fade_timer) (h12 : a.age = b.age)
    (h13 : a.lifetime = b.lifetime) (h14 : a.cloned = b.cloned)
    (h15 : a.pending = b.pending) : a = b := by
  cases a
  cases b
  simp only [Particle.mk.injEq]
  exact ⟨h1, h2, h3, h4, h5, h6, h7, h8, h9, h10, h11, h12, h13, h14, h15⟩

theorem clone_triggered_congr {q q' : Particle} (hx : q'.x = q.x) (hy : q'.y = q.y)
    (hc : q'.cloned = q.cloned) (pl : Planet) :
    clone_triggered q' pl ↔ clone_triggered q pl := by
  unfold clone_triggered
  rw [hx, hy, hc]

theorem gravity_contribution_congr {q q' : Particle} (hx : q'.x = q.x) (hy : q'.y = q.y)
    (pl : Planet) : gravity_contribution q' pl = gravity_contribution q pl := by
  unfold gravity_contribution
  rw [hx, hy]

theorem contribution_sum_congr {q q' : Particle} (hx : q'.x = q.x) (hy : q'.y = q.y)
    (l : List Planet) :
    ((l.map fun pl => (gravity_contribution q' pl).1).sum
      = (l.map fun pl => (gravity_contribution q pl).1).sum) ∧
    ((l.map fun pl => (gravity_contribution q' pl).2).sum
      = (l.map fun pl => (gravity_contribution q pl).2).sum) := by
  induction l with
  | nil => simp
  | cons a t ih =>
    simp [gravity_contribution_congr hx hy, ih.1, ih.2]

theorem post_loop_env_congr {e1 e2 : Env} (hdt : e1.dt = e2.dt)
    (hw : e1.walls = e2.walls) (q : Particle) (aff : Bool) :
    post_loop e1 q aff = post_loop e2 q aff := by
  unfold post_loop
  rw [hdt, hw]

/-- Air resistance with zero intensity leaves the particle unchanged. -/
theorem air_step_zero_intensity (pl : Planet) (d : ℝ) (q : Particle)
    (hair : pl.air_resistance_intensity = 0) : air_step pl d q = q := by
  cases q with
  | mk x y vx vy radius mass alive exploding fading et ft age lt cloned pending =>
    unfold air_step
    split_ifs with h1 h2
    · simp [hair]
    all_goals rfl

/-- With no collision, no clone trigger and zero air-resistance intensity,
one planet-loop iteration adds exactly the planet's gravitational
contribution to the velocity and changes nothing else. -/
theorem planet_step_gravity_sum (q : Particle) (aff : Bool) (pl : Planet)
    (hnc : ¬ collides_with q pl) (hct : ¬ clone_triggered q pl)
    (hair : pl.air_resistance_intensity = 0) :
    ∃ q2 aff2, planet_step q aff pl = LoopOut.go q2 aff2 ∧
      q2.vx = q.vx + (gravity_contribution q pl).1 ∧
      q2.vy = q.vy + (gravity_contribution q pl).2 ∧
      q2.x = q.x ∧ q2.y = q.y ∧ q2.radius = q.radius ∧ q2.mass = q.mass ∧
      q2.alive = q.alive ∧ q2.exploding = q.exploding ∧ q2.fading = q.fading ∧
      q2.explosion_timer = q.explosion_timer ∧ q2.fade_timer = q.fade_timer ∧
      q2.age = q.age ∧ q2.lifetime = q.lifetime ∧ q2.cloned = q.cloned ∧
      q2.pending = q.pending := by
  unfold collides_with at hnc
  unfold clone_triggered at hct
  simp only [planet_step, if_neg hct, apply_ite Particle.radius, ite_self]
  rw [if_neg hnc]
  by_cases hpos : 0 < Real.sqrt ((pl.x - q.x) ^ 2 + (pl.y - q.y) ^ 2)
  · rw [if_pos hpos]
    by_cases hfor : 0 < pl.gravity_force (Real.sqrt ((pl.x - q.x) ^ 2 + (pl.y - q.y) ^ 2))
    · simp only [if_pos hfor]
      rw [air_step_zero_intensity _ _ _ hair]
      refine ⟨_, true, rfl, ?_, ?_, rfl, rfl, rfl, rfl, rfl, rfl, rfl, rfl, rfl, rfl,
        rfl, rfl, rfl⟩ <;>
        simp [gravity_contribution, hpos, hfor]
    · simp only [if_neg hfor]
      rw [air_step_zero_intensity _ _ _ hair]
      refine ⟨_, aff, rfl, ?_, ?_, rfl, rfl, rfl, rfl, rfl, rfl, rfl, rfl, rfl, rfl,
        rfl, rfl, rfl⟩ <;>
        simp [gravity_contribution, hpos, hfor]
  · rw [if_neg hpos]
    refine ⟨_, aff, rfl, ?_, ?_, rfl, rfl, rfl, rfl, rfl, rfl, rfl, rfl, rfl, rfl,
      rfl, rfl, rfl⟩ <;>
      simp [gravity_contribution, hpos]

/-- Because the gravitational contributions depend only on the (unchanged)
position, the whole planet loop adds their list sum to the velocity — a true
vector sum — when no collision, no clone trigger and no air resistance are
involved. -/
theorem planet_loop_gravity_sum (l : List Planet) : ∀ (q : Particle) (aff : Bool),
    (∀ pl ∈ l, ¬ collides_with q pl ∧ ¬ clone_triggered q pl ∧
      pl.air_resistance_intensity = 0) →
    ∃ q2 aff2, planet_loop q aff l = LoopOut.go q2 aff2 ∧
      q2.vx = q.vx + ((l.map fun pl => (gravity_contribution q pl).1).sum) ∧
      q2.vy = q.vy + ((l.map fun pl => (gravity_contribution q pl).2).sum) ∧
      q2.x = q.x ∧ q2.y = q.y ∧ q2.radius = q.radius ∧ q2.mass = q.mass ∧
      q2.alive = q.alive ∧ q2.exploding = q.exploding ∧ q2.fading = q.fading ∧
      q2.explosion_timer = q.explosion_timer ∧ q2.fade_timer = q.fade_timer ∧
      q2.age = q.age ∧ q2.lifetime = q.lifetime ∧ q2.cloned = q.cloned ∧
      q2.pending = q.pending := by
  induction l with
  | nil =>
    intro q aff h
    exact ⟨q, aff, rfl, by simp, by simp, rfl, rfl, rfl, rfl, rfl, rfl, rfl, rfl, rfl,
      rfl, rfl, rfl, rfl⟩
  | cons pl rest ih =>
    intro q aff h
    obtain ⟨h1, h2, h3⟩ := h pl (by simp)
    obtain ⟨q1, aff1, heq, e1, e2, e3, e4, e5, e6, e7, e8, e9, e10, e11, e12, e13, e14,
      e15⟩ := planet_step_gravity_sum q aff pl h1 h2 h3
    obtain ⟨q2, aff2, heq2, g1, g2, g3, g4, g5, g6, g7, g8, g9, g10, g11, g12, g13, g14,
      g15⟩ := ih q1 aff1 (fun pl' hpl' => by
        obtain ⟨k1, k2, k3⟩ := h pl' (by simp [hpl'])
        exact ⟨fun hcc => k1 ((collides_with_congr e3 e4 e5 pl').mp hcc),
          fun hcc => k2 ((clone_triggered_congr e3 e4 e14 pl').mp hcc), k3⟩)
    obtain ⟨hs1, hs2⟩ := contribution_sum_congr e3 e4 rest
    refine ⟨q2, aff2, ?_, ?_, ?_, by rw [g3, e3], by rw [g4, e4], by rw [g5, e5],
      by rw [g6, e6], by rw [g7, e7], by rw [g8, e8], by rw [g9, e9], by rw [g10, e10],
      by rw [g11, e11], by rw [g12, e12], by rw [g13, e13], by rw [g14, e14],
      by rw [g15, e15]⟩
    · simp only [planet_loop, heq]
      exact heq2
    · rw [g1, hs1, e1]
      simp only [List.map_cons, List.sum_cons]
      ring
    · rw [g2, hs2, e2]
      simp only [List.map_cons, List.sum_cons]
      ring

theorem update_perm_aux (env : Env) (l2 : List Planet) (P p : Particle)
    (hx : P.x = p.x) (hy : P.y = p.y) (hr : P.radius = p.radius) (hc : P.cloned = p.cloned)
    (hperm : env.planets.Perm l2)
    (hcond : ∀ pl ∈ env.planets, ¬ collides_with p pl ∧ ¬ clone_triggered p pl ∧
      pl.air_resistance_intensity = 0) :
    (match planet_loop P false env.planets with
      | LoopOut.ret q _ => q
      | LoopOut.go q aff => post_loop env q aff)
    = (match planet_loop P false l2 with
      | LoopOut.ret q _ => q
      | LoopOut.go q aff => post_loop ⟨env.dt, l2, env.walls⟩ q aff) := by
  have hcondP : ∀ pl ∈ env.planets, ¬ collides_with P pl ∧ ¬ clone_triggered P pl ∧
      pl.air_resistance_intensity = 0 := fun pl hpl => by
    obtain ⟨g1, g2, g3⟩ := hcond pl hpl
    exact ⟨fun hcc => g1 ((collides_with_congr hx hy hr pl).mp hcc),
      fun hcc => g2 ((clone_triggered_congr hx hy hc pl).mp hcc), g3⟩
  have hcondP2 : ∀ pl ∈ l2, ¬ collides_with P pl ∧ ¬ clone_triggered P pl ∧
      pl.air_resistance_intensity = 0 := fun pl hpl => hcondP pl (hperm.mem_iff.mpr hpl)
  obtain ⟨q2, aff2, heq, e1, e2, e3, e4, e5, e6, e7, e8, e9, e10, e11, e12, e13, e14,
    e15⟩ := planet_loop_gravity_sum env.planets P false hcondP
  obtain ⟨q3, aff3, heq2, g1, g2, g3, g4, g5, g6, g7, g8, g9, g10, g11, g12, g13, g14,
    g15⟩ := planet_loop_gravity_sum l2 P false hcondP2
  have hsx : ((env.planets.map fun pl => (gravity_contribution P pl).1).sum)
      = ((l2.map fun pl => (gravity_contribution P pl).1).sum) :=
    (hperm.map _).sum_eq
  have hsy : ((env.planets.map fun pl => (gravity_contribution P pl).2).sum)
      = ((l2.map fun pl => (gravity_contribution P pl).2).sum) :=
    (hperm.map _).sum_eq
  have hq : q2 = q3 :=
    Particle.ext' q2 q3 (by rw [e3, g3]) (by rw [e4, g4]) (by rw [e1, g1, hsx])
      (by rw [e2, g2, hsy]) (by rw [e5, g5]) (by rw [e6, g6]) (by rw [e7, g7])
      (by rw [e8, g8]) (by rw [e9, g9]) (by rw [e10, g10]) (by rw [e11, g11])
      (by rw [e12, g12]) (by rw [e13, g13]) (by rw [e14, g14]) (by rw [e15, g15])
  have hiff1 := planet_loop_go_affected heq (fun pl hpl => (hcondP pl hpl).1)
  have hiff2 := planet_loop_go_affected heq2 (fun pl hpl => (hcondP2 pl hpl).1)
  have hmem : (∃ pl ∈ env.planets, exerts_gravity P pl) ↔
      (∃ pl ∈ l2, exerts_gravity P pl) :=
    ⟨fun ⟨pl, hm, hg⟩ => ⟨pl, hperm.mem_iff.mp hm, hg⟩,
     fun ⟨pl, hm, hg⟩ => ⟨pl, hperm.mem_iff.mpr hm, hg⟩⟩
  have haff : aff2 = aff3 := by
    rcases Bool.eq_false_or_eq_true aff2 with hb2 | hb2 <;>
      rcases Bool.eq_false_or_eq_true aff3 with hb3 | hb3
    · rw [hb2, hb3]
    · exfalso
      have hx2 := hiff1.mp hb2
      simp only [Bool.false_eq_true, false_or] at hx2
      have hcontr := hiff2.mpr (Or.inr (hmem.mp hx2))
      rw [hb3] at hcontr
      exact absurd hcontr (by simp)
    · exfalso
      have hx3 := hiff2.mp hb3
      simp only [Bool.false_eq_true, false_or] at hx3
      have hcontr := hiff1.mpr (Or.inr (hmem.mpr hx3))
      rw [hb2] at hcontr
      exact absurd hcontr (by simp)
    · rw [hb2, hb3]
  rw [heq, heq2, hq, haff]
  exact post_loop_env_congr rfl rfl _ _

theorem gravity_contribution_symm (p : Particle) (pl1 pl2 : Planet)
    (hx : pl2.x - p.x = -(pl1.x - p.x)) (hy : pl2.y - p.y = -(pl1.y - p.y))
    (hm : pl2.mass = pl1.mass) (hg : pl2.gravity_distance = pl1.gravity_distance) :
    (gravity_contribution p pl2).1 = -(gravity_contribution p pl1).1 ∧
    (gravity_contribution p pl2).2 = -(gravity_contribution p pl1).2 := by
  have hforce : ∀ d, pl2.gravity_force d = pl1.gravity_force d := fun d => by
    unfold Planet.gravity_force Planet.distance_factor
    rw [hm, hg]
  simp only [gravity_contribution, hx, hy, neg_sq, hforce]
  split_ifs <;> constructor <;> norm_num <;> ring

/-- Claim C8, amended: the per-planet gravitational contributions depend only
on the particle's (loop-invariant) position, so over one tick they combine as
a true vector sum; when no planet collides, triggers a clone, or applies air
resistance (intensity 0), the post-loop velocity is exactly the initial
velocity plus the list sum of the contributions; two equal-mass planets
placed symmetrically about the particle have contributions that cancel
exactly, leaving the velocity unchanged by the loop; and the entire update
result is invariant under any permutation of the planets list.  (With
non-zero air resistance the code applies a velocity-dependent drag
planet-by-planet inside the same loop, and the result does depend on the
order — see the counterexample — so the unrestricted claim is false.) -/
theorem gravity_net_sum (env : Env) (l2 : List Planet) (p : Particle)
    (hperm : env.planets.Perm l2)
    (hcond : ∀ pl ∈ env.planets, ¬ collides_with p pl ∧ ¬ clone_triggered p pl ∧
      pl.air_resistance_intensity = 0) :
    (∀ q2 aff2, planet_loop p false env.planets = LoopOut.go q2 aff2 →
      q2.vx = p.vx + ((env.planets.map fun pl => (gravity_contribution p pl).1).sum) ∧
      q2.vy = p.vy + ((env.planets.map fun pl => (gravity_contribution p pl).2).sum)) ∧
    (∀ pl1 pl2, env.planets = [pl1, pl2] →
      pl2.x - p.x = -(pl1.x - p.x) → pl2.y - p.y = -(pl1.y - p.y) →
      pl2.mass = pl1.mass → pl2.gravity_distance = pl1.gravity_distance →
      (((env.planets.map fun pl => (gravity_contribution p pl).1).sum = 0 ∧
        (env.planets.map fun pl => (gravity_contribution p pl).2).sum = 0) ∧
       ∀ q2 aff2, planet_loop p false env.planets = LoopOut.go q2 aff2 →
         q2.vx = p.vx ∧ q2.vy = p.vy)) ∧
    Particle.update env p = Particle.update ⟨env.dt, l2, env.walls⟩ p := by
  have hsum : ∀ q2 aff2, planet_loop p false env.planets = LoopOut.go q2 aff2 →
      q2.vx = p.vx + ((env.planets.map fun pl => (gravity_contribution p pl).1).sum) ∧
      q2.vy = p.vy + ((env.planets.map fun pl => (gravity_contribution p pl).2).sum) := by
    intro q2 aff2 heq
    obtain ⟨q2', aff2', heq', e1, e2, -⟩ :=
      planet_loop_gravity_sum env.planets p false hcond
    rw [heq] at heq'
    injection heq' with v1 v2
    rw [v1]
    exact ⟨e1, e2⟩
  refine ⟨hsum, ?_, ?_⟩
  · intro pl1 pl2 henv hx hy hm hg
    obtain ⟨hc1, hc2⟩ := gravity_contribution_symm p pl1 pl2 hx hy hm hg
    have hz : ((env.planets.map fun pl => (gravity_contribution p pl).1).sum = 0 ∧
        (env.planets.map fun pl => (gravity_contribution p pl).2).sum = 0) := by
      rw [henv]
      simp only [List.map_cons, List.map_nil, List.sum_cons, List.sum_nil, hc1, hc2]
      constructor <;> ring
    refine ⟨hz, fun q2 aff2 heq => ?_⟩
    obtain ⟨w1, w2⟩ := hsum q2 aff2 heq
    rw [w1, w2, hz.1, hz.2, add_zero, add_zero]
    exact ⟨rfl, rfl⟩
  · by_cases ha : p.alive = false
    · simp only [Particle.update]
      rw [if_pos ha, if_pos ha]
    · simp only [Particle.update]
      rw [if_neg ha, if_neg ha]
      split_ifs <;>
        first
        | rfl
        | (exact update_perm_aux env l2 _ p (by simp) (by simp) (by simp) (by simp)
            hperm hcond)

/-- Claim C8, witness for the amended theorem: two equal-mass planets with
zero air resistance placed symmetrically about the particle — their
gravitational contributions sum to zero in both components, and the update
result is identical for both orders of the planet list. -/
theorem gravity_net_sum_witness :
    (([{ Planet.init 100 0 48 with air_resistance_intensity := 0 },
        { Planet.init (-100) 0 48 with air_resistance_intensity := 0 }].map
          fun pl => (gravity_contribution (Particle.init 0 0 1 0) pl).1).sum = 0 ∧
     ([{ Planet.init 100 0 48 with air_resistance_intensity := 0 },
        { Planet.init (-100) 0 48 with air_resistance_intensity := 0 }].map
          fun pl => (gravity_contribution (Particle.init 0 0 1 0) pl).2).sum = 0) ∧
    Particle.update
        ⟨1, [{ Planet.init 100 0 48 with air_resistance_intensity := 0 },
             { Planet.init (-100) 0 48 with air_resistance_intensity := 0 }], []⟩
        (Particle.init 0 0 1 0)
      = Particle.update
        ⟨1, [{ Planet.init (-100) 0 48 with air_resistance_intensity := 0 },
             { Planet.init 100 0 48 with air_resistance_intensity := 0 }], []⟩
        (Particle.init 0 0 1 0) := by
  have hs : Real.sqrt (10000 : ℝ) = 100 := sqrt_eval (by norm_num) (by norm_num)
  have H := gravity_net_sum
    ⟨1, [{ Planet.init 100 0 48 with air_resistance_intensity := 0 },
         { Planet.init (-100) 0 48 with air_resistance_intensity := 0 }], []⟩
    [{ Planet.init (-100) 0 48 with air_resistance_intensity := 0 },
     { Planet.init 100 0 48 with air_resistance_intensity := 0 }]
    (Particle.init 0 0 1 0) (List.Perm.swap _ _ _) (by
      intro pl hpl
      simp only [List.mem_cons, List.mem_singleton, List.not_mem_nil, or_false] at hpl
      rcases hpl with h | h <;>
        (subst h
         refine ⟨?_, ?_, rfl⟩
         · unfold collides_with
           norm_num [Planet.init, Particle.init, hs]
         · unfold clone_triggered
           simp [Planet.init]))
  exact ⟨(H.2.1 _ _ rfl (by norm_num [Planet.init, Particle.init])
      (by norm_num [Planet.init, Particle.init]) (by norm_num [Planet.init])
      (by norm_num [Planet.init])).1, H.2.2⟩

/-- Claim C8, counterexample: with the default air resistance (0.5), the
post-tick velocity depends on the order of the planets list — two symmetric
equal planets processed as (right, left) give vx = 30840341/31250000 while
(left, right) gives vx = 30911909/31250000 — because each planet applies its
drag to the velocity as already modified inside the same loop, not to a
pre-summed net force. -/
theorem velocity_depends_on_planet_order :
    [Planet.init 100 0 48, Planet.init (-100) 0 48].Perm
      [Planet.init (-100) 0 48, Planet.init 100 0 48] ∧
    (Particle.update ⟨1, [Planet.init 100 0 48, Planet.init (-100) 0 48], []⟩
        (Particle.init 0 0 1 0)).vx
      ≠ (Particle.update ⟨1, [Planet.init (-100) 0 48, Planet.init 100 0 48], []⟩
        (Particle.init 0 0 1 0)).vx := by
  have hs1 : Real.sqrt (10000 : ℝ) = 100 := sqrt_eval (by norm_num) (by norm_num)
  have hrp : (100 : ℝ) ^ (1.5 : ℝ) = 1000 := by
    rw [rpow_three_halves 100 (by norm_num),
      show Real.sqrt (100 : ℝ) = 10 from sqrt_eval (by norm_num) (by norm_num)]
    norm_num
  have hrp32 : (100 : ℝ) ^ ((3 : ℝ) / 2) = 1000 := by
    rw [show ((3 : ℝ) / 2) = (1.5 : ℝ) by norm_num]
    exact hrp
  have hs2 : Real.sqrt ((22201 : ℝ) / 15625) = 149 / 125 :=
    sqrt_eval (by norm_num) (by norm_num)
  have hs3 : Real.sqrt ((3850574809 : ℝ) / 3906250000) = 62053 / 62500 :=
    sqrt_eval (by norm_num) (by norm_num)
  have hs4 : Real.sqrt ((10201 : ℝ) / 15625) = 101 / 125 :=
    sqrt_eval (by norm_num) (by norm_num)
  have hs5 : Real.sqrt ((3868466809 : ℝ) / 3906250000) = 62197 / 62500 :=
    sqrt_eval (by norm_num) (by norm_num)
  refine ⟨List.Perm.swap _ _ _, ?_⟩
  have e1 : (Particle.update ⟨1, [Planet.init 100 0 48, Planet.init (-100) 0 48], []⟩
      (Particle.init 0 0 1 0)).vx = 30840341 / 31250000 := by
    norm_num [Particle.update, planet_loop, planet_step, post_loop, wall_loop, air_step,
      Planet.gravity_force, Planet.distance_factor, Planet.air_strength,
      Planet.init, Particle.init, hs1, hrp, hrp32, hs2, hs3]
  have e2 : (Particle.update ⟨1, [Planet.init (-100) 0 48, Planet.init 100 0 48], []⟩
      (Particle.init 0 0 1 0)).vx = 30911909 / 31250000 := by
    norm_num [Particle.update, planet_loop, planet_step, post_loop, wall_loop, air_step,
      Planet.gravity_force, Planet.distance_factor, Planet.air_strength,
      Planet.init, Particle.init, hs1, hrp, hrp32, hs4, hs5]
  rw [e1, e2]
  norm_num

/-! ## Claim C9 -/

theorem emitter_pass_core_spec (env : Env) (ps : List Particle) :
    (emitter_pass_core env ps).1
      = (ps.map (fun s => Particle.update env { s with pending := [] })).filter
          (fun q => q.alive) ∧
    (emitter_pass_core env ps).2 = ps.flatMap (fun s => s.pending.map mkClone) := by
  induction ps with
  | nil => exact ⟨rfl, rfl⟩
  | cons s rest ih =>
    refine ⟨?_, ?_⟩ <;>
      simp [emitter_pass_core, List.filter_cons, ih.1, ih.2]

/-- Claim C9, amended (emitter half): one emitter update pass produces
exactly the surviving updated particles of the snapshot, in order, followed
by the particles built from every pending clone record drained during the
pass; in particular every pending clone of every particle in the collection
becomes a new particle in the same emitter's collection.  (The additions are
appended to the live list during the pass, but iteration is over a snapshot
copy, so they are never visited mid-pass.) -/
theorem emitter_update_pass_spec (env : Env) (ps : List Particle) :
    emitter_update_pass env ps
      = ((ps.map (fun s => Particle.update env { s with pending := [] })).filter
          (fun q => q.alive)) ++ (ps.flatMap fun s => s.pending.map mkClone) ∧
    (∀ s ∈ ps, ∀ c ∈ s.pending, mkClone c ∈ emitter_update_pass env ps) := by
  obtain ⟨h1, h2⟩ := emitter_pass_core_spec env ps
  have heq : emitter_update_pass env ps
      = ((ps.map (fun s => Particle.update env { s with pending := [] })).filter
          (fun q => q.alive)) ++ (ps.flatMap fun s => s.pending.map mkClone) := by
    unfold emitter_update_pass
    rw [h1, h2]
  refine ⟨heq, fun s hs c hc => ?_⟩
  rw [heq]
  exact List.mem_append_right _ (List.mem_flatMap.mpr ⟨s, hs, List.mem_map_of_mem _ hc⟩)

/-- Claim C9, witness: a pending clone record on an emitter-owned particle
becomes a member of the emitter's collection after one update pass. -/
theorem emitter_update_pass_spec_witness :
    mkClone ⟨5, 6, 1, 2, 5, 1, 0, 20⟩ ∈ emitter_update_pass ⟨1, [], []⟩
      [{ Particle.init 0 0 1 0 with pending := [⟨5, 6, 1, 2, 5, 1, 0, 20⟩] }] :=
  (emitter_update_pass_spec ⟨1, [], []⟩
    [{ Particle.init 0 0 1 0 with pending := [⟨5, 6, 1, 2, 5, 1, 0, 20⟩] }]).2
    { Particle.init 0 0 1 0 with pending := [⟨5, 6, 1, 2, 5, 1, 0, 20⟩] } (by simp)
    ⟨5, 6, 1, 2, 5, 1, 0, 20⟩ (by simp)

/-- Claim C9, counterexample (spawner half): a spawner-owned particle crosses
a clone orbit during the tick (the clone record is produced and stays in its
pending list), yet the spawner's collection still has exactly one particle
after the pass — ParticleSpawner.update never drains pending clones, so the
clone is never appended to any collection. -/
theorem spawner_never_drains_clones :
    clone_triggered (Particle.init 196 0 10 0)
      { Planet.init 0 0 49 with has_clone_orbit := true, mass := 8232 } ∧
    (spawner_update_pass
        ⟨1, [{ Planet.init 0 0 49 with has_clone_orbit := true, mass := 8232 }], []⟩
        [Particle.init 196 0 10 0]).length = 1 ∧
    (∀ q ∈ spawner_update_pass
        ⟨1, [{ Planet.init 0 0 49 with has_clone_orbit := true, mass := 8232 }], []⟩
        [Particle.init 196 0 10 0], q.pending ≠ []) := by
  have hs196 : Real.sqrt (38416 : ℝ) = 196 := sqrt_eval (by norm_num) (by norm_num)
  have hs100 : Real.sqrt (100 : ℝ) = 10 := sqrt_eval (by norm_num) (by norm_num)
  have hs25 : Real.sqrt (25 : ℝ) = 5 := sqrt_eval (by norm_num) (by norm_num)
  have hrp : (196 : ℝ) ^ (1.5 : ℝ) = 2744 := by
    rw [rpow_three_halves 196 (by norm_num),
      show Real.sqrt (196 : ℝ) = 14 from sqrt_eval (by norm_num) (by norm_num)]
    norm_num
  have hrp32 : (196 : ℝ) ^ ((3 : ℝ) / 2) = 2744 := by
    rw [show ((3 : ℝ) / 2) = (1.5 : ℝ) by norm_num]
    exact hrp
  refine ⟨?_, ?_, ?_⟩
  · unfold clone_triggered
    norm_num [Planet.init, Particle.init, hs196]
  · norm_num [spawner_update_pass, Particle.update, planet_loop, planet_step, post_loop,
      wall_loop, air_step, Particle.clone_step, Planet.gravity_force,
      Planet.distance_factor, Planet.air_strength, Planet.init, Particle.init,
      hs196, hs100, hs25, hrp, hrp32]
  · intro q hq
    norm_num [spawner_update_pass, Particle.update, planet_loop, planet_step, post_loop,
      wall_loop, air_step, Particle.clone_step, Planet.gravity_force,
      Planet.distance_factor, Planet.air_strength, Planet.init, Particle.init,
      hs196, hs100, hs25, hrp, hrp32] at hq
    rw [hq]
    simp

end ParticleTycoon
